import Mathlib

/-!
Verification of the resource-reconciliation logic of the nsys.libvirt
Ansible collection, shallowly embedded in Lean.

Conventions of the embedding:
* Hypervisor state (domains, pools, volumes, networks) is passed explicitly;
  a libvirt API call that mutates the hypervisor becomes a state update, and a
  call that can raise `libvirt.libvirtError` is modelled by the corresponding
  guard on the state.
* `module.fail_json` / uncaught Python exceptions are modelled by the `fail`
  constructor of `ModResult`, carrying the hypervisor state at the moment of
  exit (so "does not mutate" is statable).
* Python strings are modelled as `List Char` where character-level processing
  happens; Python `int(...)`/`float(...)` conversions are partial functions
  returning `Option` (`none` = the conversion raises).  `float` values are
  modelled as exact rationals (the sizes the modules handle are far below the
  2^53 range where binary rounding could differ on integral inputs).
-/

namespace NsysLibvirt

/-! ## Python primitives -/

/-- Python `str.strip()` on a character list. -/
def stripChars (cs : List Char) : List Char :=
  ((cs.dropWhile Char.isWhitespace).reverse.dropWhile Char.isWhitespace).reverse

/-- Numeric value of a digit list (most significant first). -/
def digitsVal (cs : List Char) : Nat :=
  cs.foldl (fun a c => a * 10 + (c.toNat - '0'.toNat)) 0

def allDigits (cs : List Char) : Bool :=
  cs.all Char.isDigit

/-- Python `int(s)` for a decimal string: optional surrounding whitespace,
optional sign, one or more digits.  `none` models `ValueError`. -/
def pyInt (cs : List Char) : Option Int :=
  let cs := stripChars cs
  match cs with
  | '+' :: rest =>
      if rest ≠ [] ∧ allDigits rest then some (digitsVal rest) else none
  | '-' :: rest =>
      if rest ≠ [] ∧ allDigits rest then some (-(digitsVal rest : Int)) else none
  | rest =>
      if rest ≠ [] ∧ allDigits rest then some (digitsVal rest) else none

/-- Exponent part of a float literal: optional sign then digits. -/
def pyFloatExp (cs : List Char) : Option Int :=
  match cs with
  | '+' :: rest => if rest ≠ [] ∧ allDigits rest then some (digitsVal rest) else none
  | '-' :: rest => if rest ≠ [] ∧ allDigits rest then some (-(digitsVal rest : Int)) else none
  | rest => if rest ≠ [] ∧ allDigits rest then some (digitsVal rest) else none

/-- Mantissa of a float literal: `digits [. digits]` with at least one digit
overall; returns (value scaled to an integer, number of fractional digits). -/
def pyFloatMantissa (cs : List Char) : Option (Nat × Nat) :=
  let intPart := cs.takeWhile (fun c => c ≠ '.')
  let rest := cs.dropWhile (fun c => c ≠ '.')
  if allDigits intPart then
    match rest with
    | [] => if intPart ≠ [] then some (digitsVal intPart, 0) else none
    | _ :: frac =>
        if allDigits frac ∧ (intPart ≠ [] ∨ frac ≠ []) then
          some (digitsVal (intPart ++ frac), frac.length)
        else none
  else none

/-- An exactly represented float value
`(-1)^neg * mant / 10^fracDigits * 10^exp`. -/
structure PyFloatRep where
  neg : Bool
  mant : Nat
  fracDigits : Nat
  exp : Int
deriving Repr, DecidableEq

/-- Python `float(s)` modelled exactly; `none` models `ValueError`.
(The sizes handled by the modules are far below the 2^53 range where binary
rounding of a float could differ from exact arithmetic.) -/
def pyFloat (cs : List Char) : Option PyFloatRep :=
  let cs := stripChars cs
  let signed : Bool → List Char → Option PyFloatRep := fun neg body =>
    let mantPart := body.takeWhile (fun c => c ≠ 'e' ∧ c ≠ 'E')
    let expRest := body.dropWhile (fun c => c ≠ 'e' ∧ c ≠ 'E')
    match expRest with
    | [] =>
        (pyFloatMantissa mantPart).map (fun mk =>
          { neg := neg, mant := mk.1, fracDigits := mk.2, exp := 0 })
    | _ :: expPart =>
        match pyFloatMantissa mantPart, pyFloatExp expPart with
        | some mk, some e =>
            some { neg := neg, mant := mk.1, fracDigits := mk.2, exp := e }
        | _, _ => none
  match cs with
  | '+' :: rest => signed false rest
  | '-' :: rest => signed true rest
  | rest => signed false rest

/-- Python `int(f * factor)` for an exactly represented float and a natural
factor: exact product, truncated toward zero. -/
def PyFloatRep.timesNatTrunc (f : PyFloatRep) (factor : Nat) : Int :=
  let num := f.mant * factor * 10 ^ f.exp.toNat
  let den := 10 ^ (f.fracDigits + (-f.exp).toNat)
  let q : Nat := num / den
  if f.neg then -(q : Int) else (q : Int)

/-! ## `libvirt_volume.py` : `parse_size` -/

/-- Unit factor table of `parse_size` (`units` dict, keyed by the uppercased
last character). -/
def unitFactor (c : Char) : Option Nat :=
  match c.toUpper with
  | 'B' => some 1
  | 'K' => some 1024
  | 'M' => some (1024 ^ 2)
  | 'G' => some (1024 ^ 3)
  | 'T' => some (1024 ^ 4)
  | _ => none

/-- `parse_size(size_str)` from `plugins/modules/libvirt_volume.py`:
strip, look at the last character; if it is a known unit, convert the prefix
with `float` and scale, else convert the whole string with `int`.
`none` models an uncaught exception (IndexError / ValueError). -/
def parseSize (sizeStr : String) : Option Int :=
  let size := stripChars sizeStr.toList
  match size.getLast? with
  | none => none
  | some last =>
      match unitFactor last with
      | some factor =>
          (pyFloat size.dropLast).map (fun f => f.timesNatTrunc factor)
      | none => pyInt size


/-! ## Hypervisor volume state (`plugins/module_utils/volume_utils.py`) -/

/-- A storage volume as the hypervisor holds it: identified by
(pool name, volume name). -/
structure Volume where
  pool : String
  name : String
  capacity : Int
  allocation : Int
  format : String
deriving Repr, DecidableEq

/-- Hypervisor storage state: the defined pools and the volumes they hold. -/
structure VState where
  pools : List String
  vols : List Volume
deriving Repr, DecidableEq

/-- Info record returned by `VolumeUtils.get_volume_info`. -/
structure VolumeInfo where
  name : String
  path : String
  capacity : Int
  allocation : Int
  format : String
  pool : String
deriving Repr, DecidableEq

/-- `vol.path()`: derived from the pool target path and the volume name. -/
def volPath (v : Volume) : String :=
  "/" ++ v.pool ++ "/" ++ v.name

def findVol (st : VState) (p n : String) : Option Volume :=
  st.vols.find? (fun v => v.pool == p && v.name == n)

def poolExists (st : VState) (p : String) : Bool :=
  st.pools.contains p

/-- `VolumeUtils.get_volume_info`: empty (`none`) when the pool lookup or the
volume lookup raises. -/
def getVolumeInfo (st : VState) (p n : String) : Option VolumeInfo :=
  if poolExists st p then
    (findVol st p n).map (fun v =>
      { name := n, path := volPath v, capacity := v.capacity,
        allocation := v.allocation, format := v.format, pool := p })
  else none

/-- `VolumeUtils.volume_exists`. -/
def volumeExists (st : VState) (p n : String) : Bool :=
  (getVolumeInfo st p n).isSome

/-! ## Module results -/

/-- Outcome of one module invocation: `ok payload st` models `exit_json`,
`fail msg st` models `fail_json` (or an uncaught exception reaching the
catch-all handler), each carrying the hypervisor state at exit. -/
inductive ModResult (ρ σ : Type) where
  | ok : ρ → σ → ModResult ρ σ
  | fail : String → σ → ModResult ρ σ
deriving Repr, DecidableEq

def ModResult.state : ModResult ρ σ → σ
  | .ok _ s => s
  | .fail _ s => s

def ModResult.isFail : ModResult ρ σ → Bool
  | .ok _ _ => false
  | .fail _ _ => true

def ModResult.payload : ModResult ρ σ → Option ρ
  | .ok r _ => some r
  | .fail _ _ => none

/-- Payload of the volume module: (changed, msg, volume_info). -/
abbrev VolPayload := Bool × String × Option VolumeInfo

/-! ## `libvirt_volume.py` operations -/

/-- `create_volume`: no-op when the volume already exists; otherwise parse the
sizes, create through the pool, and report the fresh info record.  A missing
pool raises `libvirtError` (caught: "Error creating volume"); a bad size
string raises `ValueError` (reaches the catch-all: "Unexpected error"). -/
def createVolume (st : VState) (p n capacity : String)
    (allocation : Option String) (fmt : String) : ModResult VolPayload VState :=
  if volumeExists st p n then
    .ok (false, "Volume already exists", none) st
  else if poolExists st p then
    match parseSize capacity,
          (match allocation with
           | some a => parseSize a
           | none => some 0) with
    | some capBytes, some allocBytes =>
        let st2 : VState :=
          { st with vols := st.vols ++
              [{ pool := p, name := n, capacity := capBytes,
                 allocation := allocBytes, format := fmt }] }
        .ok (true, "Volume created successfully", getVolumeInfo st2 p n) st2
    | _, _ => .fail "Unexpected error: invalid size" st
  else
    .fail "Error creating volume" st

/-- `delete_volume`. -/
def deleteVolume (st : VState) (p n : String) : ModResult VolPayload VState :=
  if volumeExists st p n then
    let st2 : VState :=
      { st with vols := st.vols.filter (fun v => ¬(v.pool == p && v.name == n)) }
    .ok (true, "Volume deleted successfully", none) st2
  else
    .ok (false, "Volume does not exist", none) st

/-- `vol.resize(new_capacity_bytes)`: in-place capacity update. -/
def updateVolCapacity (st : VState) (p n : String) (b : Int) : VState :=
  { st with vols := st.vols.map (fun v =>
      if v.pool == p && v.name == n then { v with capacity := b } else v) }

/-- `resize_volume`: fatal when absent; no-op at equal size; fatal on shrink;
grow in place otherwise. -/
def resizeVolume (st : VState) (p n cap : String) : ModResult VolPayload VState :=
  match getVolumeInfo st p n with
  | none => .fail ("Volume " ++ n ++ " does not exist") st
  | some info =>
      match parseSize cap with
      | none => .fail "Unexpected error: invalid size" st
      | some newBytes =>
          if newBytes = info.capacity then
            .ok (false, "Volume is already at the specified size",
                 getVolumeInfo st p n) st
          else if newBytes < info.capacity then
            .fail "New capacity must be larger than current capacity" st
          else
            let st2 := updateVolCapacity st p n newBytes
            .ok (true, "Volume resized", getVolumeInfo st2 p n) st2

/-- Concrete storage state for witnesses: pool `p1` holding volume `v1`
of 5 GiB. -/
def vstExample : VState :=
  { pools := ["p1"],
    vols := [{ pool := "p1", name := "v1", capacity := 5 * 1024 ^ 3,
               allocation := 0, format := "qcow2" }] }

/-! ## Hypervisor domain state (`plugins/module_utils/domain_utils.py`,
`plugins/modules/domain.py`, `plugins/modules/domain_power_state.py`) -/

/-- `libvirt.VIR_DOMAIN_RUNNING`. -/
def VIR_DOMAIN_RUNNING : Nat := 1
/-- `libvirt.VIR_DOMAIN_SHUTOFF`. -/
def VIR_DOMAIN_SHUTOFF : Nat := 5

/-- A domain as the hypervisor holds it.  `uuid` is the draw of
`uuid.uuid4()`, modelled by a fresh counter. -/
structure Domain where
  name : String
  uuid : Nat
  vcpu : Nat
  memoryMB : Nat
  stateCode : Nat
deriving Repr, DecidableEq

/-- Hypervisor domain state. -/
structure DState where
  domains : List Domain
  nextUuid : Nat
deriving Repr, DecidableEq

def findDom (st : DState) (n : String) : Option Domain :=
  st.domains.find? (fun d => d.name == n)

/-- Info record assembled by `DomainUtils.get_domain_info` (the fields the
claims observe). -/
structure DomainInfo where
  name : String
  uuid : Nat
  stateCode : Nat
  vcpus : Nat
  memoryMB : Nat
  active : Bool
deriving Repr, DecidableEq

/-- `DomainUtils.get_domain_info`: `none` models the empty dict returned when
`lookupByName` raises. -/
def getDomainInfo (st : DState) (n : String) : Option DomainInfo :=
  (findDom st n).map (fun d =>
    { name := n, uuid := d.uuid, stateCode := d.stateCode, vcpus := d.vcpu,
      memoryMB := d.memoryMB, active := d.stateCode != VIR_DOMAIN_SHUTOFF })

/-- `DomainUtils.domain_exists`. -/
def domainExists (st : DState) (n : String) : Bool :=
  (getDomainInfo st n).isSome

/-- Payload of the domain module: (changed, msg, domain_info). -/
abbrev DomPayload := Bool × String × Option DomainInfo

/-- `create_domain` from `plugins/modules/domain.py`: no-op with
"Domain already exists" when the name is taken; otherwise synthesize the
minimal descriptor (`generate_domain_xml`, drawing a fresh UUID) and define it
persistent, not started. -/
def createDomain (st : DState) (n : String) (vcpu mem : Nat) :
    ModResult DomPayload DState :=
  if domainExists st n then
    .ok (false, "Domain already exists", getDomainInfo st n) st
  else
    let st2 : DState :=
      { domains := st.domains ++
          [{ name := n, uuid := st.nextUuid, vcpu := vcpu, memoryMB := mem,
             stateCode := VIR_DOMAIN_SHUTOFF }],
        nextUuid := st.nextUuid + 1 }
    .ok (true, "Domain created successfully", getDomainInfo st2 n) st2

/-- `remove_domain` from `plugins/modules/domain.py`: no-op when absent;
otherwise stop it if active (graceful then forced), then undefine.  The
hypervisor is modelled as honouring the stop, so the domain is removed. -/
def removeDomain (st : DState) (n : String) : ModResult DomPayload DState :=
  if domainExists st n then
    let st2 : DState :=
      { st with domains := st.domains.filter (fun d => ¬(d.name == n)) }
    .ok (true, "Domain and all associated resources removed successfully",
         none) st2
  else
    .ok (false, "Domain does not exist", none) st

/-! ## `DomainUtils.manage_power_state` and `wait_for_state` -/

/-- `time.sleep(1)` between polls of `wait_for_state`. -/
def SHUTDOWN_POLL_INTERVAL : Nat := 1
/-- Default `timeout` of `wait_for_state` (seconds). -/
def SHUTDOWN_POLL_TIMEOUT : Nat := 60

/-- `DomainUtils.wait_for_state`: poll `get_domain_state` once per
`SHUTDOWN_POLL_INTERVAL` second until `timeout` seconds have elapsed; true
iff the target state was observed.  The guest's reaction is the trace
`observed`, giving the domain state at each 1-second tick. -/
def waitForState (observed : Nat → Nat) (targetState : Nat)
    (timeout : Nat := SHUTDOWN_POLL_TIMEOUT) : Bool :=
  (List.range timeout).any (fun t => observed t == targetState)

/-- Hypervisor calls `manage_power_state` can issue, in order. -/
inductive PowerOp where
  | destroy
  | shutdown
  | reboot
  | reset
  | start
deriving Repr, DecidableEq

/-- Observable outcome of `manage_power_state`: the returned
`{'changed', 'state'}` plus the trace of hypervisor calls and whether
`wait_for_state` polled. -/
structure PowerOutcome where
  changed : Bool
  finalState : Nat
  ops : List PowerOp
  polled : Bool
deriving Repr, DecidableEq

def setDomState (st : DState) (n : String) (code : Nat) : DState :=
  { st with domains := st.domains.map (fun d =>
      if d.name == n then { d with stateCode := code } else d) }

/-- `DomainUtils.manage_power_state(domain_name, state, force)`.
`observedAfterShutdown` is the guest's state trace once a graceful shutdown
request has been issued (the hypervisor model).  A missing domain raises
(`lookupByName`), reaching the module's catch-all handler. -/
def managePowerState (st : DState) (n target : String) (force : Bool)
    (observedAfterShutdown : Nat → Nat) : ModResult PowerOutcome DState :=
  match findDom st n with
  | none => .fail "Failed to manage domain state" st
  | some d =>
      let cur := d.stateCode
      if target == "poweroff" then
        if cur ≠ VIR_DOMAIN_SHUTOFF then
          if force then
            let st2 := setDomState st n VIR_DOMAIN_SHUTOFF
            .ok { changed := true, finalState := VIR_DOMAIN_SHUTOFF,
                  ops := [.destroy], polled := false } st2
          else
            let honored :=
              waitForState observedAfterShutdown VIR_DOMAIN_SHUTOFF
                SHUTDOWN_POLL_TIMEOUT
            if honored then
              let st2 := setDomState st n VIR_DOMAIN_SHUTOFF
              .ok { changed := true, finalState := VIR_DOMAIN_SHUTOFF,
                    ops := [.shutdown], polled := true } st2
            else
              -- timed out: `if force: domain.destroy()` — force is false on
              -- this branch of the source, so no destroy is issued
              if force then
                let st2 := setDomState st n VIR_DOMAIN_SHUTOFF
                .ok { changed := true, finalState := VIR_DOMAIN_SHUTOFF,
                      ops := [.shutdown, .destroy], polled := true } st2
              else
                .ok { changed := true, finalState := cur,
                      ops := [.shutdown], polled := true } st
        else
          .ok { changed := false, finalState := cur, ops := [], polled := false }
            st
      else if target == "reboot" then
        if cur = VIR_DOMAIN_RUNNING then
          .ok { changed := true, finalState := cur,
                ops := [if force then .reset else .reboot], polled := false } st
        else
          .ok { changed := false, finalState := cur, ops := [], polled := false }
            st
      else if target == "running" then
        if cur ≠ VIR_DOMAIN_RUNNING then
          let st2 := setDomState st n VIR_DOMAIN_RUNNING
          .ok { changed := true, finalState := VIR_DOMAIN_RUNNING,
                ops := [.start], polled := false } st2
        else
          .ok { changed := false, finalState := cur, ops := [], polled := false }
            st
      else
        .ok { changed := false, finalState := cur, ops := [], polled := false }
          st

/-- The deterministic hypervisor model used for the idempotence claims: a
guest that honours a graceful shutdown request within the poll window. -/
def obsShutoff : Nat → Nat := fun _ => VIR_DOMAIN_SHUTOFF

/-! ## IPv4 arithmetic (`ipaddress` as the network module uses it) -/

/-- Dotted-quad rendering of a 32-bit address value. -/
def ipToString (x : Nat) : String :=
  toString (x / 2 ^ 24 % 256) ++ "." ++ toString (x / 2 ^ 16 % 256) ++ "." ++
    toString (x / 2 ^ 8 % 256) ++ "." ++ toString (x % 256)

/-- An `ipaddress.IPv4Network` value: network address and prefix length.
`validate_params` has already established that the module's `cidr` string
parses, so the embedding starts from the parsed value. -/
structure Cidr where
  base : Nat
  plen : Nat
deriving Repr, DecidableEq

/-- `IPv4Network(...)` accepts the value: in-range base, prefix ≤ 32, and
(strict parsing) no host bits set. -/
def Cidr.valid (c : Cidr) : Prop :=
  c.base < 2 ^ 32 ∧ c.plen ≤ 32 ∧ c.base % 2 ^ (32 - c.plen) = 0

/-- `network.netmask` as a 32-bit value. -/
def Cidr.netmask (c : Cidr) : Nat := 2 ^ 32 - 2 ^ (32 - c.plen)

/-- `network.broadcast_address` as a 32-bit value. -/
def Cidr.broadcast (c : Cidr) : Nat := c.base + 2 ^ (32 - c.plen) - 1

/-! ## Network module (`plugins/modules/network.py`,
`plugins/module_utils/network_utils.py`) -/

/-- The module's `dhcp` dict parameter (`rangeStart`/`rangeEnd` model
`dhcp['start']`/`dhcp['end']`). -/
structure DhcpParams where
  enabled : Bool
  rangeStart : Option String
  rangeEnd : Option String
deriving Repr, DecidableEq

/-- One entry of the module's `dns.hosts` list parameter. -/
structure DnsHost where
  ip : String
  hostnames : List String
deriving Repr, DecidableEq

/-- The module's `dns` dict parameter. -/
structure DnsParams where
  enabled : Bool
  forwarders : List String
  hosts : List DnsHost
deriving Repr, DecidableEq

/-- Parameters of the network module that `generate_network_xml` and
`manage_network` read.  An `Option` field set to `none` models an Ansible
parameter left unspecified (its value in `module.params` is Python `None`). -/
structure NetParams where
  name : String
  state : String
  ntype : String
  bridge : Option String
  cidr : Option Cidr
  dhcp : Option DhcpParams
  dns : Option DnsParams
  domainName : Option String
  autostart : Bool
  mtu : Option Nat
  delay : Nat
  stp : Bool
deriving Repr, DecidableEq

/-- `<range start=… end=…/>` of the synthesized descriptor. -/
structure DhcpRangeXml where
  startAddr : String
  endAddr : String
deriving Repr, DecidableEq

/-- `<ip address=… netmask=…>` (with optional nested `<dhcp><range/></dhcp>`)
of the synthesized descriptor. -/
structure IpXml where
  address : String
  netmask : String
  dhcp : Option DhcpRangeXml
deriving Repr, DecidableEq

/-- `<dns>` block of the synthesized descriptor. -/
structure DnsXml where
  forwarders : List String
  hosts : List DnsHost
deriving Repr, DecidableEq

/-- The descriptor synthesized by `NetworkManager.generate_network_xml`,
field for field: `forwardMode = none` means the `<forward>` element was not
emitted at all. -/
structure NetworkXml where
  name : String
  bridgeName : Option String
  bridgeStp : String
  bridgeDelay : String
  bridgeMtu : Option String
  domainName : Option String
  forwardMode : Option String
  ip : Option IpXml
  dns : Option DnsXml
deriving Repr, DecidableEq

/-- `NetworkManager.generate_network_xml`.  `none` models an uncaught
exception: `.get` on an unspecified (`None`) `dhcp`/`dns` parameter, or
IPv4 address arithmetic leaving the 32-bit range. -/
def generateNetworkXml (p : NetParams) : Option NetworkXml :=
  let forwardMode := if p.ntype != "isolated" then some p.ntype else none
  let ipBlock : Option (Option IpXml) :=
    match p.cidr with
    | none => some none
    | some c =>
        match p.dhcp with
        | none => none       -- params['dhcp'] is None: `.get` raises
        | some cfg =>
            if cfg.enabled then
              let startAddr :=
                match cfg.rangeStart with
                | some s => some s
                | none =>
                    if c.base + 10 < 2 ^ 32 then some (ipToString (c.base + 10))
                    else none   -- IPv4Address out of range raises
              let endAddr :=
                match cfg.rangeEnd with
                | some e => some e
                | none =>
                    if 0 < c.broadcast then some (ipToString (c.broadcast - 1))
                    else none   -- IPv4Address(-1) raises
              match startAddr, endAddr with
              | some s, some e =>
                  some (some { address := ipToString (c.base + 1),
                               netmask := ipToString c.netmask,
                               dhcp := some { startAddr := s, endAddr := e } })
              | _, _ => none
            else
              some (some { address := ipToString (c.base + 1),
                           netmask := ipToString c.netmask, dhcp := none })
  let dnsBlock : Option (Option DnsXml) :=
    match p.dns with
    | none => none           -- params['dns'] is None: `.get` raises
    | some d =>
        if d.enabled then
          some (some { forwarders := d.forwarders, hosts := d.hosts })
        else some none
  match ipBlock, dnsBlock with
  | some ipb, some dnsb =>
      some { name := p.name,
             bridgeName := p.bridge,
             bridgeStp := if p.stp then "on" else "off",
             bridgeDelay := toString p.delay,
             bridgeMtu := p.mtu.map toString,
             domainName := p.domainName,
             forwardMode := forwardMode,
             ip := ipb,
             dns := dnsb }
  | _, _ => none

/-- A network as the hypervisor holds it: its persistent descriptor plus the
activation and autostart flags. -/
structure Network where
  name : String
  active : Bool
  autostart : Bool
  xml : NetworkXml
deriving Repr, DecidableEq

/-- Hypervisor network state. -/
structure NState where
  networks : List Network
deriving Repr, DecidableEq

def findNet (st : NState) (n : String) : Option Network :=
  st.networks.find? (fun m => m.name == n)

/-- Info record of `NetworkUtils.get_network_info` (the fields the claims
observe); `none` models the empty dict for a missing network. -/
structure NetworkInfo where
  name : String
  active : Bool
  autostart : Bool
  bridge : Option String
deriving Repr, DecidableEq

def getNetworkInfo (st : NState) (n : String) : Option NetworkInfo :=
  (findNet st n).map (fun m =>
    { name := n, active := m.active, autostart := m.autostart,
      bridge := m.xml.bridgeName })

/-- `NetworkManager.ensure_network_state`: toggle activation when it differs
from the target, toggle autostart when it differs from the declared flag;
either toggle reports a change. -/
def ensureNetworkState (nw : Network) (target : String) (autostartParam : Bool) :
    Bool × Network :=
  let currentState := if nw.active then "active" else "inactive"
  let (c1, nw1) :=
    if currentState != target then
      (true, { nw with active := target == "active" })
    else (false, nw)
  if nw1.autostart != autostartParam then
    (true, { nw1 with autostart := autostartParam })
  else (c1, nw1)

def setNet (st : NState) (nw : Network) : NState :=
  { networks := st.networks.map (fun m => if m.name == nw.name then nw else m) }

/-- Payload of the network module: (changed, network info, msg). -/
abbrev NetPayload := Bool × Option NetworkInfo × String

/-- The creation phase of `manage_network` (`state != 'absent'`): define the
network when it does not exist and the target state is not `inactive`;
returns the network object to operate on (if any), whether a change was
made, and the creation message. -/
def manageNetworkCreate (st : NState) (p : NetParams) :
    ModResult (Option Network × Bool × String) NState :=
  match findNet st p.name with
  | some nw => .ok (some nw, false, "") st
  | none =>
      if p.state != "inactive" then
        match generateNetworkXml p with
        | none => .fail "Unexpected error" st
        | some x =>
            .ok (some { name := p.name, active := false, autostart := false,
                        xml := x }, true, "Network " ++ p.name ++ " created")
              { networks := st.networks ++
                  [{ name := p.name, active := false, autostart := false,
                     xml := x }] }
      else .ok (none, false, "") st

/-- The state/autostart phase of `manage_network` after the creation phase. -/
def manageNetworkEnsure (st1 : NState) (p : NetParams) (net? : Option Network)
    (changed0 : Bool) (msg0 : String) : ModResult NetPayload NState :=
  match net? with
  | some nw =>
      if p.state == "active" ∨ p.state == "inactive" then
        .ok ((ensureNetworkState nw p.state p.autostart).1,
             getNetworkInfo (setNet st1 (ensureNetworkState nw p.state p.autostart).2) p.name,
             "Network " ++ p.name ++ " state changed to " ++ p.state)
          (setNet st1 (ensureNetworkState nw p.state p.autostart).2)
      else if p.state == "present" then
        match p.dhcp with
        | none => .fail "Unexpected error" st1
        | some cfg =>
            if cfg.enabled then
              .ok ((ensureNetworkState nw "active" p.autostart).1,
                   getNetworkInfo (setNet st1 (ensureNetworkState nw "active" p.autostart).2) p.name,
                   "Network " ++ p.name ++ " is active")
                (setNet st1 (ensureNetworkState nw "active" p.autostart).2)
            else .ok (changed0, getNetworkInfo st1 p.name, msg0) st1
      else .ok (changed0, getNetworkInfo st1 p.name, msg0) st1
  | none => .ok (changed0, getNetworkInfo st1 p.name, msg0) st1

/-- `NetworkManager.manage_network`. -/
def manageNetwork (st : NState) (p : NetParams) : ModResult NetPayload NState :=
  if p.state == "absent" then
    match findNet st p.name with
    | some _ =>
        .ok (true, none, "Network " ++ p.name ++ " removed")
          { networks := st.networks.filter (fun m => ¬(m.name == p.name)) }
    | none => .ok (false, none, "Network " ++ p.name ++ " does not exist") st
  else
    match manageNetworkCreate st p with
    | .fail m s => .fail m s
    | .ok (net?, changed0, msg0) st1 =>
        manageNetworkEnsure st1 p net? changed0 msg0

/-! ## Storage pool module (`plugins/modules/storage_pool.py`) -/

/-- A storage pool as the hypervisor holds it (the modules only ever define
persistent pools). -/
structure Pool where
  name : String
  active : Bool
  autostart : Bool
  ptype : String
  targetPath : String
deriving Repr, DecidableEq

/-- Hypervisor pool state plus the host directories that exist. -/
structure PoolState where
  pools : List Pool
  dirs : List String
deriving Repr, DecidableEq

def findPool (st : PoolState) (n : String) : Option Pool :=
  st.pools.find? (fun q => q.name == n)

/-- Parameters of the pool module that `manage_pool` reads. -/
structure PoolParams where
  name : String
  poolType : Option String
  targetPath : Option String
  state : String
  autostart : Bool
deriving Repr, DecidableEq

/-- Info record of `get_pool_info` (the fields the claims observe). -/
structure PoolInfo where
  name : String
  poolState : String
  autostart : Bool
  targetPath : String
  ptype : String
deriving Repr, DecidableEq

def getPoolInfo (q : Pool) : PoolInfo :=
  { name := q.name, poolState := if q.active then "active" else "inactive",
    autostart := q.autostart, targetPath := q.targetPath, ptype := q.ptype }

/-- Payload of the pool module: (changed, msg, pool_info). -/
abbrev PoolPayload := Bool × String × Option PoolInfo

/-- The autostart step of `manage_pool`: `setAutostart` when the declared
flag differs from the pool's. -/
def poolApplyAutostart (p : PoolParams) (q : Pool) : Bool × Pool :=
  if p.autostart != q.autostart then (true, { q with autostart := p.autostart })
  else (false, q)

/-- The active/inactive step of `manage_pool`: `create` when `state=active`
and the pool is not active, `destroy` when `state=inactive` and it is. -/
def poolApplyState (p : PoolParams) (q : Pool) : Bool × Pool :=
  if p.state == "active" ∧ ¬ q.active then (true, { q with active := true })
  else if p.state == "inactive" ∧ q.active then (true, { q with active := false })
  else (false, q)

/-- The tail of `manage_pool` (autostart + state handling + final info),
shared by the fresh-definition and already-existing paths; `changed0` is
whether anything changed before it runs. -/
def poolPostDefine (st : PoolState) (p : PoolParams) (changed0 : Bool) :
    ModResult PoolPayload PoolState :=
  match findPool st p.name with
  | none => .fail "unreachable" st
  | some q =>
      .ok (changed0 || (poolApplyAutostart p q).1 ||
             (poolApplyState p (poolApplyAutostart p q).2).1,
           (if (changed0 || (poolApplyAutostart p q).1 ||
               (poolApplyState p (poolApplyAutostart p q).2).1) = true then
              "Pool " ++ p.name ++ " updated successfully"
            else "Pool " ++ p.name ++ " is in desired state"),
           some (getPoolInfo (poolApplyState p (poolApplyAutostart p q).2).2))
        { st with pools := st.pools.map (fun r =>
            if r.name == p.name then
              (poolApplyState p (poolApplyAutostart p q).2).2
            else r) }

/-- `manage_pool` from `plugins/modules/storage_pool.py`. -/
def managePool (st : PoolState) (p : PoolParams) : ModResult PoolPayload PoolState :=
  match findPool st p.name with
  | none =>
      if p.state == "absent" then
        .ok (false, "Pool already absent", none) st
      else
        match p.poolType with
        | none => .fail "pool_type is required when creating a new pool" st
        | some ptype =>
            match p.targetPath with
            | none => .fail "target_path is required when creating a new pool" st
            | some path =>
                let dirChanged := ptype == "dir" && ¬ st.dirs.contains path
                poolPostDefine
                  { pools := st.pools ++
                      [{ name := p.name, active := false, autostart := false,
                         ptype := ptype, targetPath := path }],
                    dirs := if dirChanged then st.dirs ++ [path] else st.dirs }
                  p true
  | some _ =>
      if p.state == "absent" then
        .ok (true, "Pool " ++ p.name ++ " removed", none)
          { st with pools := st.pools.filter (fun r => ¬(r.name == p.name)) }
      else
        poolPostDefine st p false

/-! ## A small `xml.etree.ElementTree` model -/

mutual
/-- An ElementTree element: tag, attributes, text, children.  A descriptor
string is modelled by `Option Xml`: `none` is a string on which
`ET.fromstring` raises `ParseError`. -/
inductive Xml where
  | elem (tag : String) (attrs : List (String × String)) (text : Option String)
      (children : XmlList)

/-- Children of an element (a dedicated list type keeps all recursion over
the tree structural). -/
inductive XmlList where
  | nil
  | cons (head : Xml) (tail : XmlList)
end

def XmlList.toList : XmlList → List Xml
  | .nil => []
  | .cons c rest => c :: rest.toList

def XmlList.ofList : List Xml → XmlList
  | [] => .nil
  | c :: rest => .cons c (XmlList.ofList rest)

/-- Element constructor taking an ordinary list of children. -/
def Xml.mk (tag : String) (attrs : List (String × String)) (text : Option String)
    (children : List Xml) : Xml :=
  .elem tag attrs text (XmlList.ofList children)

def Xml.tag : Xml → String
  | .elem t _ _ _ => t

def Xml.attrs : Xml → List (String × String)
  | .elem _ a _ _ => a

def Xml.text : Xml → Option String
  | .elem _ _ t _ => t

def Xml.children : Xml → List Xml
  | .elem _ _ _ cs => cs.toList

/-- `element.get(key)`. -/
def Xml.attr (x : Xml) (k : String) : Option String :=
  (x.attrs.find? (fun a => a.1 == k)).map (·.2)

/-- `element.get(key, default)`. -/
def Xml.attrD (x : Xml) (k dflt : String) : String :=
  (x.attr k).getD dflt

/-- `root.find(tag)`: first direct child with the tag. -/
def Xml.findChild (x : Xml) (t : String) : Option Xml :=
  x.children.find? (fun c => c.tag == t)

mutual
/-- All proper descendants of an element in document (preorder) order. -/
def Xml.descendants : Xml → List Xml
  | .elem _ _ _ cs => XmlList.descList cs

def XmlList.descList : XmlList → List Xml
  | .nil => []
  | .cons c rest => (c :: c.descendants) ++ rest.descList
end

/-- `root.find(".//tag")` below `x`: first proper descendant with the tag,
in document order. -/
def Xml.findDesc (x : Xml) (t : String) : Option Xml :=
  x.descendants.find? (fun c => c.tag == t)

/-- `root.findall(".//tag")` below `x`: all proper descendants with the tag,
in document order. -/
def Xml.findAllDesc (x : Xml) (t : String) : List Xml :=
  x.descendants.filter (fun c => c.tag == t)

/-! ## Inspector extraction (`DomainUtils._extract_memory_info`,
`NetworkUtils._extract_bridge_info`) -/

/-- Python exceptions the inspectors can hit. -/
inductive PyExc where
  | valueError (msg : String)
  | typeError (msg : String)
deriving Repr, DecidableEq

/-- Outcome of an extraction helper: a populated record, the empty dict
(`{}`), or an uncaught exception. -/
inductive ExtractResult (α : Type) where
  | ok (val : α)
  | empty
  | exc (e : PyExc)
deriving Repr, DecidableEq

def ExtractResult.isExc : ExtractResult α → Bool
  | .exc _ => true
  | _ => false

/-- `int(text)` where `text` came from `element.text` (may be `None`). -/
def pyIntOfText (t : Option String) : Except PyExc Int :=
  match t with
  | none => .error (.typeError "int() argument must not be None")
  | some s =>
      match pyInt s.toList with
      | some v => .ok v
      | none => .error (.valueError ("invalid literal for int(): " ++ s))

/-- The dict built by `_extract_memory_info`. -/
structure MemoryInfo where
  maximum : Option Int
  current : Option Int
  unit : Option String
deriving Repr, DecidableEq

/-- `DomainUtils._extract_memory_info(dom_xml)`: `ParseError` is swallowed
into `{}`, but `int()` on non-numeric or absent element text raises. -/
def extractMemoryInfo (domXml : Option Xml) : ExtractResult MemoryInfo :=
  match domXml with
  | none => .empty
  | some root =>
      let memory := root.findChild "memory"
      let currentMemory := root.findChild "currentMemory"
      let maximum : Except PyExc (Option Int) :=
        match memory with
        | none => .ok none
        | some m => (pyIntOfText m.text).map some
      let current : Except PyExc (Option Int) :=
        match currentMemory with
        | none => .ok none
        | some m => (pyIntOfText m.text).map some
      match maximum with
      | .error e => .exc e
      | .ok maxv =>
          match current with
          | .error e => .exc e
          | .ok curv =>
              .ok { maximum := maxv, current := curv,
                    unit := match memory with
                            | none => some "KiB"
                            | some m => m.attr "unit" }

/-- The dict built by `_extract_bridge_info`. -/
structure BridgeInfo where
  name : String
  stp : Bool
  delay : Int
deriving Repr, DecidableEq

/-- `NetworkUtils._extract_bridge_info(net_xml)`: `ParseError` is swallowed
into `{}`, a missing `<bridge>` yields `{}`, but `int()` on a non-numeric
`delay` attribute raises. -/
def extractBridgeInfo (netXml : Option Xml) : ExtractResult BridgeInfo :=
  match netXml with
  | none => .empty
  | some root =>
      match root.findDesc "bridge" with
      | none => .empty
      | some b =>
          let delay : Except PyExc Int :=
            match b.attr "delay" with
            | none => .ok 0          -- `b.get("delay", 0)`: the int default
            | some s =>
                match pyInt s.toList with
                | some v => .ok v
                | none => .error (.valueError ("invalid literal for int(): " ++ s))
          match delay with
          | .error e => .exc e
          | .ok d =>
              .ok { name := b.attrD "name" "", stp := b.attrD "stp" "on" == "on",
                    delay := d }

/-! ## IPv4 parsing for the DHCP reservation module -/

/-- Split a character list on a separator. -/
def splitOn (cs : List Char) (sep : Char) : List (List Char) :=
  match cs with
  | [] => [[]]
  | c :: rest =>
      let r := splitOn rest sep
      if c == sep then [] :: r
      else
        match r with
        | [] => [[c]]
        | h :: t => (c :: h) :: t

/-- One dotted-quad octet as `ipaddress` accepts it: decimal, ≤ 255,
no superfluous leading zero. -/
def parseOctet (cs : List Char) : Option Nat :=
  if cs ≠ [] ∧ allDigits cs ∧ (cs.length = 1 ∨ cs.headD '0' ≠ '0') then
    let v := digitsVal cs
    if v ≤ 255 then some v else none
  else none

/-- `ipaddress.IPv4Address(s)` as a 32-bit value; `none` models
`AddressValueError`. -/
def parseIPv4 (s : String) : Option Nat :=
  match splitOn s.toList '.' with
  | [a, b, c, d] =>
      match parseOctet a, parseOctet b, parseOctet c, parseOctet d with
      | some x, some y, some z, some w =>
          some (x * 2 ^ 24 + y * 2 ^ 16 + z * 2 ^ 8 + w)
      | _, _, _, _ => none
  | _ => none

/-- A netmask value is valid iff its bits are contiguous from the top;
returns the prefix length. -/
def maskToPrefixLen (m : Nat) : Option Nat :=
  (List.range 33).find? (fun p => m = 2 ^ 32 - 2 ^ (32 - p))

/-! ## DHCP reservation module
(`plugins/modules/network/update_dhcp_reservation.py`) -/

/-- `DHCPReservationManager._strip_ip_cidr`. -/
def stripIpCidr (s : String) : String :=
  String.mk (s.toList.takeWhile (fun c => c ≠ '/'))

/-- `DHCPReservationManager.has_dhcp_enabled`: any `<dhcp>` descendant;
`ParseError` yields `False`. -/
def hasDhcpEnabled (netXml : Option Xml) : Bool :=
  match netXml with
  | none => false
  | some root => (root.findDesc "dhcp").isSome

/-- `DHCPReservationManager.validate_ip_address`: the address must fall in
the `IPv4Network` built from the `<ip>` element's address and netmask;
anything missing or unparsable yields `False`. -/
def validateIpAddress (ipAddress : String) (netXml : Option Xml) : Bool :=
  match netXml with
  | none => false
  | some root =>
      match root.findDesc "ip" with
      | none => false
      | some ipElem =>
          match ipElem.attr "address", ipElem.attr "netmask" with
          | some addr, some mask =>
              if addr.isEmpty || mask.isEmpty then false
              else
                match parseIPv4 addr, parseIPv4 mask,
                      parseIPv4 (stripIpCidr ipAddress) with
                | some netAddr, some maskVal, some hostIp =>
                    match maskToPrefixLen maskVal with
                    | some p =>
                        hostIp / 2 ^ (32 - p) = netAddr / 2 ^ (32 - p)
                    | none => false
                | _, _, _ => false
          | _, _ => false

/-- All `.//dhcp/host` elements: direct `<host>` children of any `<dhcp>`
descendant, in document order. -/
def dhcpHosts (root : Xml) : List Xml :=
  (root.findAllDesc "dhcp").flatMap (fun d =>
    d.children.filter (fun c => c.tag == "host"))

/-- `DHCPReservationManager.get_existing_host`: first host matching the MAC
or (CIDR-stripped) IP; `ParseError` yields `None`. -/
def getExistingHost (netXml : Option Xml) (macAddress ipAddress : Option String) :
    Option Xml :=
  match netXml with
  | none => none
  | some root =>
      let cleanIp := ipAddress.map stripIpCidr
      (dhcpHosts root).find? (fun host =>
        (macAddress.isSome && host.attr "mac" == macAddress) ||
          (cleanIp.isSome && host.attr "ip" == cleanIp))

/-- `libvirt.VIR_NETWORK_UPDATE_COMMAND_MODIFY`. -/
def VIR_NETWORK_UPDATE_COMMAND_MODIFY : Nat := 1
/-- `libvirt.VIR_NETWORK_UPDATE_COMMAND_ADD_LAST`. -/
def VIR_NETWORK_UPDATE_COMMAND_ADD_LAST : Nat := 3

/-- Observable outcome of `update_reservation`: the result dict plus which
`network.update` command was issued, if any. -/
structure DhcpResResult where
  changed : Bool
  skipped : Bool
  msg : String
  warning : Option String
  updateCommand : Option Nat
deriving Repr, DecidableEq

/-- Outcome of `update_reservation`: `fatal` models `fail_json`. -/
inductive DhcpOutcome where
  | result (r : DhcpResResult)
  | fatal (msg : String)
deriving Repr, DecidableEq

/-- `DHCPReservationManager.update_reservation` for a network that exists and
has descriptor `netXml`. -/
def updateReservation (netXml : Option Xml) (netName domName ipAddress macAddress : String) :
    DhcpOutcome :=
  if hasDhcpEnabled netXml = false then
    .result { changed := false, skipped := true,
              msg := "Operation skipped - DHCP not enabled",
              warning := some ("Network " ++ netName ++
                " does not have DHCP enabled - skipping DHCP reservation"),
              updateCommand := none }
  else if validateIpAddress ipAddress netXml = false then
    .fatal ("IP address " ++ stripIpCidr ipAddress ++ " is not within network range")
  else
    match getExistingHost netXml (some macAddress) (some ipAddress) with
    | some host =>
        if host.attr "mac" == some macAddress &&
            host.attr "ip" == some (stripIpCidr ipAddress) &&
            host.attr "name" == some domName then
          .result { changed := false, skipped := false,
                    msg := "DHCP reservation already up to date",
                    warning := none, updateCommand := none }
        else
          .result { changed := true, skipped := false,
                    msg := "DHCP reservation updated", warning := none,
                    updateCommand := some VIR_NETWORK_UPDATE_COMMAND_MODIFY }
    | none =>
        .result { changed := true, skipped := false,
                  msg := "DHCP reservation updated", warning := none,
                  updateCommand := some VIR_NETWORK_UPDATE_COMMAND_ADD_LAST }

/-! ## Network attachment (`plugins/modules/network/attach.py`) -/

/-- A network interface of a domain descriptor: `<interface type=…>` with
optional `<source network=…/>` and `<mac address=…/>`. -/
structure Iface where
  itype : String
  sourceNetwork : Option String
  mac : Option String
deriving Repr, DecidableEq

/-- The target domain as the attacher sees it. -/
structure AttachNetDomain where
  running : Bool
  ifaces : List Iface
deriving Repr, DecidableEq

/-- `NetworkAttacher.is_network_attached`: first
`.//interface[@type='network']` whose source network matches; returns
(attached, its MAC). -/
def isNetworkAttached (d : AttachNetDomain) (netName : String) :
    Bool × Option String :=
  match d.ifaces.find? (fun i =>
      i.itype == "network" && i.sourceNetwork == some netName) with
  | some i => (true, i.mac)
  | none => (false, none)

def isHexDigitChar (c : Char) : Bool :=
  c.isDigit || ('a' ≤ c ∧ c ≤ 'f') || ('A' ≤ c ∧ c ≤ 'F')

/-- The MAC regex `^([0-9A-Fa-f]{2}[:-]){5}([0-9A-Fa-f]{2})$`. -/
def macMatches (cs : List Char) : Bool :=
  match cs with
  | [a, b, s1, c, d, s2, e, f, s3, g, h, s4, i, j, s5, k, l] =>
      isHexDigitChar a && isHexDigitChar b && (s1 == ':' || s1 == '-') &&
      isHexDigitChar c && isHexDigitChar d && (s2 == ':' || s2 == '-') &&
      isHexDigitChar e && isHexDigitChar f && (s3 == ':' || s3 == '-') &&
      isHexDigitChar g && isHexDigitChar h && (s4 == ':' || s4 == '-') &&
      isHexDigitChar i && isHexDigitChar j && (s5 == ':' || s5 == '-') &&
      isHexDigitChar k && isHexDigitChar l
  | _ => false

/-- `NetworkAttacher.validate_mac_address`: an empty/absent MAC is accepted. -/
def validateMacAddress (mac : Option String) : Bool :=
  match mac with
  | none => true
  | some s => if s.isEmpty then true else macMatches s.toList

/-- Python truthiness of the `mac_address` parameter. -/
def macTruthy (mac : Option String) : Bool :=
  match mac with
  | none => false
  | some s => ¬ s.isEmpty

/-- Result dict of the network attacher. -/
structure AttachNetResult where
  changed : Bool
  alreadyAttached : Bool
  domainRunning : Bool
  macAddress : Option String
deriving Repr, DecidableEq

/-- `NetworkAttacher.run` for an existing network and domain (after
`validate_requirements` resolved both).  An already attached network is
reported `already_attached=true, changed=false` with no attach call; a
requested MAC differing from the existing attachment's MAC is fatal. -/
def networkAttachRun (d : AttachNetDomain) (netName : String)
    (macParam : Option String) : ModResult AttachNetResult AttachNetDomain :=
  if macTruthy macParam ∧ ¬ validateMacAddress macParam then
    .fail ("Invalid MAC address format: " ++ (macParam.getD "")) d
  else
    let att := isNetworkAttached d netName
    if att.1 then
      if macTruthy macParam ∧ macParam ≠ att.2 then
        .fail "Network already attached with different MAC address" d
      else
        .ok { changed := false, alreadyAttached := true,
              domainRunning := d.running, macAddress := att.2 } d
    else
      let newIface : Iface :=
        { itype := "network", sourceNetwork := some netName,
          mac := if macTruthy macParam then macParam else none }
      let d2 : AttachNetDomain := { d with ifaces := d.ifaces ++ [newIface] }
      .ok { changed := true, alreadyAttached := false,
            domainRunning := d.running, macAddress := macParam } d2

/-! ## Volume attachment (`plugins/modules/storage/attach.py`) -/

/-- A `<disk>` device of a domain descriptor, as the attach module reads and
writes it. -/
structure DiskDev where
  device : String
  sourceVol : Option (String × String)
  targetDev : String
  bus : String
deriving Repr, DecidableEq

/-- The target domain as the volume attacher sees it. -/
structure AttachVolDomain where
  running : Bool
  disks : List DiskDev
  hasSataController : Bool
deriving Repr, DecidableEq

/-- `is_iso_volume`: the volume's format is `iso` (the modelled volumes
always carry a format element). -/
def isIsoVolume (v : Volume) : Bool :=
  v.format == "iso"

/-- `get_next_target_dev`: lowest letter suffix for the prefix not used by an
existing `<disk><target dev=…/>`. -/
def nextTargetDev (disks : List DiskDev) (pfx : String) : String :=
  let existing := disks.map (·.targetDev)
  let candidate := fun i => pfx ++ String.mk [Char.ofNat ('a'.toNat + i)]
  match (List.range (disks.length + 1)).find? (fun i =>
      ¬ existing.contains (candidate i)) with
  | some i => candidate i
  | none => pfx

/-- Record appended to `attached_volumes` for each attachment. -/
structure AttachedRec where
  name : String
  dtype : String
  target : String
  bus : String
deriving Repr, DecidableEq

/-- Payload of the volume attach module: (changed, attached_volumes). -/
abbrev AttachVolPayload := Bool × List AttachedRec

/-- The attach loop of `storage/attach.py` `main` (after domain/pool/volume
lookups succeeded): classify each volume, pick the next free target device
from the fresh descriptor, attach.  No check for an already attached volume
is made. -/
def attachVolumesLoop (poolName : String) (vols : List Volume)
    (dom : AttachVolDomain) (recsAcc : List AttachedRec) (changedAcc : Bool) :
    ModResult AttachVolPayload AttachVolDomain :=
  match vols with
  | [] => .ok (changedAcc, recsAcc) dom
  | v :: rest =>
      let deviceType := if isIsoVolume v then "cdrom" else "disk"
      let devicePfx := if deviceType == "cdrom" then "sd" else "vd"
      let targetDev := nextTargetDev dom.disks devicePfx
      let bus := if deviceType == "cdrom" then "sata" else "virtio"
      let newDisk : DiskDev :=
        { device := deviceType, sourceVol := some (poolName, v.name),
          targetDev := targetDev, bus := bus }
      let dom2 : AttachVolDomain := { dom with disks := dom.disks ++ [newDisk] }
      attachVolumesLoop poolName rest dom2
        (recsAcc ++ [{ name := v.name, dtype := deviceType, target := targetDev,
                       bus := bus }])
        true

/-- `main` of `storage/attach.py` for an existing domain: look up the pool
and every requested volume, provision a SATA controller when an ISO is among
them, then attach each volume in order. -/
def storageAttachMain (vst : VState) (dom : AttachVolDomain) (poolName : String)
    (volumeNames : List String) : ModResult AttachVolPayload AttachVolDomain :=
  if ¬ poolExists vst poolName then
    .fail ("Storage pool " ++ poolName ++ " not found") dom
  else
    let lookups := volumeNames.map (fun n => (n, findVol vst poolName n))
    match lookups.find? (fun l => l.2.isNone) with
    | some l => .fail ("Volume " ++ l.1 ++ " not found in pool " ++ poolName) dom
    | none =>
        let vols := lookups.filterMap (·.2)
        let hasIso := vols.any isIsoVolume
        let (dom1, changed0) :=
          if hasIso ∧ ¬ dom.hasSataController then
            ({ dom with hasSataController := true }, true)
          else (dom, false)
        attachVolumesLoop poolName vols dom1 [] changed0

/-! ## Domain clone (`plugins/modules/clone_domain.py`) -/

/-- A Python exception, distinguished by what `except libvirt.libvirtError`
catches. -/
inductive PyErr where
  | libvirtError (msg : String)
  | exc (msg : String)
deriving Repr, DecidableEq

/-- A `<disk>` entry of the source domain descriptor as the clone loop reads
it. -/
structure CloneDisk where
  device : String
  sourceFile : Option String
deriving Repr, DecidableEq

/-- Record returned by `clone_volume`. -/
structure CloneRec where
  name : String
  path : String
  ctype : String
  pool : String
deriving Repr, DecidableEq

/-- `conn.storageVolLookupByPath`. -/
def findVolByPath (st : VState) (path : String) : Option Volume :=
  st.vols.find? (fun v => volPath v == path)

/-- Hypervisor behaviour for the clone flow: the storage state plus the set
of source paths whose pool-level clone call (`createXMLFrom`) raises
`libvirtError`. -/
structure CloneEnv where
  vst : VState
  cloneFails : List String
deriving Repr, DecidableEq

/-- `os.path.basename`. -/
def basename (s : String) : String :=
  String.mk ((s.toList.reverse.takeWhile (fun c => c ≠ '/')).reverse)

/-- Worker for Python `str.replace`: left-to-right, non-overlapping.  The
fuel (one unit per character consumed) only serves termination. -/
def pyReplaceFuel : Nat → List Char → List Char → List Char → List Char
  | 0, s, _, _ => s
  | fuel + 1, s, pat, rep =>
      match s with
      | [] => []
      | c :: rest =>
          if pat ≠ [] ∧ s.take pat.length = pat then
            rep ++ pyReplaceFuel fuel (s.drop pat.length) pat rep
          else c :: pyReplaceFuel fuel rest pat rep

/-- Python `str.replace(pat, rep)` (for the non-empty patterns the clone flow
uses). -/
def pyReplace (s pat rep : String) : String :=
  String.mk (pyReplaceFuel s.length s.toList pat.toList rep.toList)

/-- `clone_volume(vol_utils, source_vol, target_name, target_pool,
linked_clone)`: every `libvirtError` raised inside is caught and re-raised as
a plain `Exception` (`PyErr.exc`), and the linked-clone/target-pool guard
also raises a plain `Exception`; so this function never lets a
`libvirtError` escape. -/
def cloneVolume (env : CloneEnv) (sourceVol : Volume) (targetName : String)
    (targetPool : Option String) (linkedClone : Bool) :
    Except PyErr (CloneRec × VState) :=
  if linkedClone ∧ sourceVol.format == "qcow2" ∧ targetPool.isSome then
    .error (.exc "Linked clones must be in the same pool as the source volume")
  else if env.cloneFails.contains (volPath sourceVol) then
    .error (.exc "Failed to clone volume: hypervisor error")
  else
    let poolToUse := targetPool.getD sourceVol.pool
    let newVol : Volume :=
      { pool := poolToUse, name := targetName, capacity := sourceVol.capacity,
        allocation := sourceVol.allocation, format := sourceVol.format }
    .ok ({ name := targetName, path := volPath newVol,
           ctype := if linkedClone then "cow" else "full", pool := poolToUse },
         { env.vst with vols := env.vst.vols ++ [newVol] })

/-- Best-effort rollback: delete every volume cloned so far by path
(`clone_vol.delete(0)` under a bare `except: pass`). -/
def rollbackClones (st : VState) (cloned : List CloneRec) : VState :=
  { st with vols := st.vols.filter (fun v =>
      ¬ (cloned.map (·.path)).contains (volPath v)) }

/-- The per-disk clone loop of `clone_domain.py` `main`: for each non-CDROM
disk with a source file, look up the backing volume and clone it.  The
`except libvirt.libvirtError` handler around the body deletes the volumes
already cloned and re-raises; any other exception (in particular the plain
`Exception` that `clone_volume` raises) propagates without rollback. -/
def cloneVolumesLoop (env : CloneEnv) (srcName cloneName : String)
    (targetPool : Option String) (linkedClone : Bool) (disks : List CloneDisk)
    (cloned : List CloneRec) (volumeMap : List (String × String)) :
    Except (String × VState) (List CloneRec × List (String × String) × VState) :=
  match disks with
  | [] => .ok (cloned, volumeMap, env.vst)
  | disk :: rest =>
      if disk.device == "disk" then
        match disk.sourceFile with
        | some sourcePath =>
            match findVolByPath env.vst sourcePath with
            | none =>
                -- `storageVolLookupByPath` raises `libvirtError`: the handler
                -- rolls back the volumes cloned so far, then raises Exception
                .error ("Failed to clone volume: lookup failed",
                        rollbackClones env.vst cloned)
            | some sourceVol =>
                let targetName :=
                  pyReplace (basename sourcePath) srcName cloneName
                match cloneVolume env sourceVol targetName targetPool
                    linkedClone with
                | .error (.libvirtError m) =>
                    -- would be rolled back — `clone_volume` never raises this
                    .error ("Failed to clone volume: " ++ m,
                            rollbackClones env.vst cloned)
                | .error (.exc m) =>
                    -- plain Exception: NOT caught by the `libvirtError`
                    -- handler, so no rollback happens
                    .error (m, env.vst)
                | .ok (rec, vst2) =>
                    cloneVolumesLoop { env with vst := vst2 } srcName cloneName
                      targetPool linkedClone rest (cloned ++ [rec])
                      (volumeMap ++ [(sourcePath, rec.path)])
        | none => cloneVolumesLoop env srcName cloneName targetPool linkedClone
            rest cloned volumeMap
      else cloneVolumesLoop env srcName cloneName targetPool linkedClone rest
        cloned volumeMap

/-- Overall clone state: storage plus the defined domain names. -/
structure CloneState where
  env : CloneEnv
  domains : List String
deriving Repr, DecidableEq

/-- Payload of the clone module: (changed, cloned volume records). -/
abbrev ClonePayload := Bool × List CloneRec

/-- `main` of `clone_domain.py` (check mode off): validations, the volume
clone loop, then definition of the clone descriptor. -/
def cloneDomainMain (st : CloneState) (srcName cloneName : String)
    (srcDisks : List CloneDisk) (targetPool : Option String)
    (linkedClone : Bool) : ModResult ClonePayload CloneState :=
  if ¬ st.domains.contains srcName then
    .fail ("Source domain " ++ srcName ++ " not found") st
  else if st.domains.contains cloneName then
    .ok (false, []) st
  else if targetPool.isSome &&
      !(match targetPool with
        | some tp => st.env.vst.pools.contains tp
        | none => false) then
    .fail ("Target storage pool not found") st
  else if linkedClone ∧ targetPool.isSome then
    .fail "Linked clones must be in the same storage pool as the source volume"
      st
  else
    match cloneVolumesLoop st.env srcName cloneName targetPool linkedClone
        srcDisks [] [] with
    | .error (msg, vst2) =>
        .fail ("Error cloning domain: " ++ msg)
          { st with env := { st.env with vst := vst2 } }
    | .ok (cloned, _, vst2) =>
        .ok (true, cloned)
          { env := { st.env with vst := vst2 },
            domains := st.domains ++ [cloneName] }

/-! ## Concrete scenarios referenced by the theorems -/

/-- Concrete domain for the attach witnesses: network `default` attached with
MAC `52:54:00:aa:bb:cc`. -/
def attachedDom : AttachNetDomain :=
  { running := true,
    ifaces := [{ itype := "network", sourceNetwork := some "default",
                 mac := some "52:54:00:aa:bb:cc" }] }

/-- A well-formed network descriptor whose bridge `delay` attribute is not a
number — `ET.fromstring` accepts it, but `int("x")` raises `ValueError`. -/
def badBridgeNet : Xml :=
  Xml.mk "network" [] none [Xml.mk "bridge" [("delay", "x")] none []]

/-- A well-formed domain descriptor whose `<memory>` text is not a number. -/
def badMemoryDom : Xml :=
  Xml.mk "domain" [] none [Xml.mk "memory" [] (some "abc") []]

/-- A well-formed minimal domain descriptor with numeric memory fields. -/
def goodMemoryDom : Xml :=
  Xml.mk "domain" [] none
    [Xml.mk "memory" [("unit", "MiB")] (some "2048") [],
     Xml.mk "currentMemory" [("unit", "MiB")] (some "2048") []]

/-- Network descriptor for the C8 witness and counterexample: subnet
192.168.1.0/24, DHCP enabled; `dhcpHostsPair` additionally holds two host
entries sharing the IP 192.168.1.10 — first `other`'s MAC, then the exact
(mac, ip, name) entry for `vm1`. -/
def dhcpNetNoDhcp : Xml :=
  Xml.mk "network" [] none
    [Xml.mk "ip" [("address", "192.168.1.1"), ("netmask", "255.255.255.0")]
      none []]

def dhcpNetExact : Xml :=
  Xml.mk "network" [] none
    [Xml.mk "ip" [("address", "192.168.1.1"), ("netmask", "255.255.255.0")]
      none
      [Xml.mk "dhcp" [] none
        [Xml.mk "host"
          [("mac", "52:54:00:00:00:01"), ("ip", "192.168.1.10"),
           ("name", "vm1")] none []]]]

def dhcpNetShadowed : Xml :=
  Xml.mk "network" [] none
    [Xml.mk "ip" [("address", "192.168.1.1"), ("netmask", "255.255.255.0")]
      none
      [Xml.mk "dhcp" [] none
        [Xml.mk "host"
          [("mac", "52:54:00:00:00:02"), ("ip", "192.168.1.10"),
           ("name", "other")] none [],
         Xml.mk "host"
          [("mac", "52:54:00:00:00:01"), ("ip", "192.168.1.10"),
           ("name", "vm1")] none []]]]

/-- Domain that already has volume `v1` of pool `p1` attached as `vda`. -/
def dupDom : AttachVolDomain :=
  { running := false,
    disks := [{ device := "disk", sourceVol := some ("p1", "v1"),
                targetDev := "vda", bus := "virtio" }],
    hasSataController := false }

/-- Storage for the clone scenarios: pool `p1` with the two source disks of
domain `src`. -/
def cloneSrcVols : VState :=
  { pools := ["p1"],
    vols := [{ pool := "p1", name := "src-disk1", capacity := 1024,
               allocation := 0, format := "qcow2" },
             { pool := "p1", name := "src-disk2", capacity := 1024,
               allocation := 0, format := "qcow2" }] }

/-- Hypervisor behaviour where the pool-level clone call for the second disk
raises `libvirtError` inside `clone_volume`. -/
def cloneStCloneFail : CloneState :=
  { env := { vst := cloneSrcVols, cloneFails := ["/p1/src-disk2"] },
    domains := ["src"] }

/-- Hypervisor behaviour where the second disk's backing volume cannot be
looked up (`storageVolLookupByPath` raises). -/
def cloneStLookupFail : CloneState :=
  { env := { vst := { pools := ["p1"],
                      vols := [{ pool := "p1", name := "src-disk1",
                                 capacity := 1024, allocation := 0,
                                 format := "qcow2" }] },
             cloneFails := [] },
    domains := ["src"] }

/-- The two disks of the source domain descriptor. -/
def cloneSrcDisks : List CloneDisk :=
  [{ device := "disk", sourceFile := some "/p1/src-disk1" },
   { device := "disk", sourceFile := some "/p1/src-disk2" }]

/-! ## Theorems about the volume module -/

/-- The pools are untouched by `vol.resize`. -/
lemma pools_updateVolCapacity (st : VState) (p n : String) (b : Int) :
    (updateVolCapacity st p n b).pools = st.pools := rfl

lemma findVol_updateVolCapacity (st : VState) (p n : String) (b : Int) :
    findVol (updateVolCapacity st p n b) p n =
      (findVol st p n).map (fun v => { v with capacity := b }) := by
  unfold findVol updateVolCapacity
  rw [List.find?_map]
  have hcomp :
      ((fun v : Volume => v.pool == p && v.name == n) ∘
        (fun v : Volume =>
          if v.pool == p && v.name == n then { v with capacity := b } else v))
      = (fun v : Volume => v.pool == p && v.name == n) := by
    funext v
    simp only [Function.comp]
    by_cases hv : (v.pool == p && v.name == n) = true
    · rw [if_pos hv]
    · rw [if_neg hv]
  rw [hcomp]
  cases hfind : st.vols.find? (fun v => v.pool == p && v.name == n) with
  | none => rfl
  | some v =>
      have hv : (v.pool == p && v.name == n) = true := by
        simpa using List.find?_some hfind
      dsimp only [Option.map]
      rw [if_pos hv]

/-- After the in-place capacity update, the info record reports the new
capacity and is otherwise unchanged. -/
lemma getVolumeInfo_updateVolCapacity (st : VState) (p n : String) (b : Int) :
    getVolumeInfo (updateVolCapacity st p n b) p n =
      (getVolumeInfo st p n).map (fun i => { i with capacity := b }) := by
  unfold getVolumeInfo
  have hpools : poolExists (updateVolCapacity st p n b) p = poolExists st p := rfl
  rw [hpools, findVol_updateVolCapacity]
  by_cases hp : poolExists st p
  · rw [if_pos hp, if_pos hp]
    cases findVol st p n with
    | none => rfl
    | some v => rfl
  · rw [if_neg hp, if_neg hp]; rfl

/-- C2: resize of a nonexistent volume is fatal; for an existing volume,
resize below the current capacity is fatal and leaves the state (hence the
capacity) unchanged, resize at the current capacity reports `changed=false`
without mutating, and resize above it mutates and the returned info record
reports the requested capacity; size strings use binary units, so `"10G"` is
exactly `10 * 1024 ^ 3` bytes. -/
theorem resize_grow_only_spec (st : VState) (p n s : String) (req : Int)
    (hs : parseSize s = some req) :
    (volumeExists st p n = false →
        resizeVolume st p n s = .fail ("Volume " ++ n ++ " does not exist") st) ∧
    (∀ info, getVolumeInfo st p n = some info →
      (req < info.capacity →
          resizeVolume st p n s =
            .fail "New capacity must be larger than current capacity" st) ∧
      (req = info.capacity →
          resizeVolume st p n s =
            .ok (false, "Volume is already at the specified size", some info) st) ∧
      (info.capacity < req →
          ∃ st2, resizeVolume st p n s =
              .ok (true, "Volume resized", getVolumeInfo st2 p n) st2 ∧
            (getVolumeInfo st2 p n).map VolumeInfo.capacity = some req)) ∧
    parseSize "10G" = some (10 * 1024 ^ 3) := by
  refine ⟨?_, ?_, by decide⟩
  · intro hnex
    unfold resizeVolume
    cases hinfo : getVolumeInfo st p n with
    | none => rfl
    | some i => simp [volumeExists, hinfo] at hnex
  · intro info hinfo
    refine ⟨?_, ?_, ?_⟩
    · intro hlt
      unfold resizeVolume
      rw [hinfo, hs]
      have hne : ¬ req = info.capacity := by omega
      simp [hne, hlt]
    · intro heq
      unfold resizeVolume
      rw [hinfo, hs]
      simp [heq, hinfo]
    · intro hgt
      unfold resizeVolume
      rw [hinfo, hs]
      have hne : ¬ req = info.capacity := by omega
      have hnlt : ¬ req < info.capacity := by omega
      simp only [hne, if_false, hnlt]
      exact ⟨_, rfl, by
        rw [getVolumeInfo_updateVolCapacity st p n req, hinfo]
        rfl⟩

/-- Witness for C2 at pool `p1`, volume `v1` of 5 GiB: "3G" is a fatal
shrink that leaves the state unchanged, and looking up a missing volume is
fatal. -/
theorem resize_grow_only_spec_witness :
    resizeVolume vstExample "p1" "v1" "3G" =
      .fail "New capacity must be larger than current capacity" vstExample ∧
    resizeVolume vstExample "p1" "v0" "3G" =
      .fail ("Volume " ++ "v0" ++ " does not exist") vstExample := by
  constructor
  · exact (((resize_grow_only_spec vstExample "p1" "v1" "3G" (3 * 1024 ^ 3)
      (by decide)).2.1
      { name := "v1", path := "/p1/v1", capacity := 5 * 1024 ^ 3,
        allocation := 0, format := "qcow2", pool := "p1" }
      (by decide)).1 (by decide))
  · exact (resize_grow_only_spec vstExample "p1" "v0" "3G" (3 * 1024 ^ 3)
      (by decide)).1 (by decide)

/-! ## Theorems about the network module -/

/-- C10: requesting `state=inactive` for a network name that does not exist
defines nothing, activates nothing, and returns `changed=false` with no error
and an empty info record; the hypervisor state is untouched. -/
theorem network_inactive_absent_noop (st : NState) (p : NetParams)
    (hstate : p.state = "inactive") (habs : findNet st p.name = none) :
    manageNetwork st p = .ok (false, none, "") st := by
  unfold manageNetwork manageNetworkCreate manageNetworkEnsure
  rw [hstate]
  simp [habs, getNetworkInfo]

/-- Witness for C10: empty network state, `state=inactive` parameters. -/
theorem network_inactive_absent_noop_witness :
    manageNetwork { networks := [] }
      { name := "net0", state := "inactive", ntype := "nat", bridge := none,
        cidr := none, dhcp := none, dns := none, domainName := none,
        autostart := true, mtu := none, delay := 0, stp := true } =
      .ok (false, none, "") { networks := [] } :=
  network_inactive_absent_noop { networks := [] }
    { name := "net0", state := "inactive", ntype := "nat", bridge := none,
      cidr := none, dhcp := none, dns := none, domainName := none,
      autostart := true, mtu := none, delay := 0, stp := true }
    (by decide) (by decide)

/-! ## Theorems about `manage_power_state` -/

/-- C4: for target `poweroff` — already `SHUTOFF`: no operation, no polling,
`changed=false`; not `SHUTOFF` and forced: one immediate destroy, no polling;
not `SHUTOFF` and unforced: a graceful shutdown is issued and the state is
polled (1-second ticks, 60-second cap), no destroy is ever issued at timeout
(a forced stop would require `force`, which is false on this branch), and
`changed=true` is reported even when `SHUTOFF` was never observed. -/
theorem manage_power_state_poweroff_spec (st : DState) (n : String) (d : Domain)
    (hd : findDom st n = some d) (force : Bool) (observed : Nat → Nat) :
    (d.stateCode = VIR_DOMAIN_SHUTOFF →
      managePowerState st n "poweroff" force observed =
        .ok { changed := false, finalState := d.stateCode, ops := [],
              polled := false } st) ∧
    (d.stateCode ≠ VIR_DOMAIN_SHUTOFF → force = true →
      managePowerState st n "poweroff" force observed =
        .ok { changed := true, finalState := VIR_DOMAIN_SHUTOFF,
              ops := [.destroy], polled := false }
          (setDomState st n VIR_DOMAIN_SHUTOFF)) ∧
    (d.stateCode ≠ VIR_DOMAIN_SHUTOFF → force = false →
      ∃ st2 fs,
        managePowerState st n "poweroff" force observed =
          .ok { changed := true, finalState := fs, ops := [.shutdown],
                polled := true } st2 ∧
        (waitForState observed VIR_DOMAIN_SHUTOFF SHUTDOWN_POLL_TIMEOUT = false →
          fs = d.stateCode ∧ st2 = st)) ∧
    SHUTDOWN_POLL_TIMEOUT = 60 ∧ SHUTDOWN_POLL_INTERVAL = 1 := by
  refine ⟨?_, ?_, ?_, rfl, rfl⟩
  · intro hoff
    unfold managePowerState
    rw [hd]
    simp [hoff]
  · intro hnot hf
    unfold managePowerState
    rw [hd, hf]
    simp [hnot]
  · intro hnot hf
    unfold managePowerState
    rw [hd, hf]
    cases hw : waitForState observed VIR_DOMAIN_SHUTOFF SHUTDOWN_POLL_TIMEOUT with
    | true =>
        refine ⟨setDomState st n VIR_DOMAIN_SHUTOFF, VIR_DOMAIN_SHUTOFF, ?_, ?_⟩
        · simp [hnot, hw]
        · intro hfalse; exact Bool.noConfusion hfalse
    | false =>
        refine ⟨st, d.stateCode, ?_, fun _ => ⟨rfl, rfl⟩⟩
        simp [hnot, hw]

/-- Witness for C4 at a running domain with a guest that never reaches
`SHUTOFF`: unforced poweroff issues only the shutdown, polls, and still
reports `changed=true` with the domain left running. -/
theorem manage_power_state_poweroff_spec_witness :
    ∃ st2 fs,
      managePowerState
        { domains := [{ name := "vm1", uuid := 0, vcpu := 1, memoryMB := 512,
                        stateCode := VIR_DOMAIN_RUNNING }], nextUuid := 1 }
        "vm1" "poweroff" false (fun _ => VIR_DOMAIN_RUNNING) =
        .ok { changed := true, finalState := fs, ops := [.shutdown],
              polled := true } st2 ∧
      (waitForState (fun _ => VIR_DOMAIN_RUNNING) VIR_DOMAIN_SHUTOFF
          SHUTDOWN_POLL_TIMEOUT = false →
        fs = VIR_DOMAIN_RUNNING ∧
        st2 = { domains := [{ name := "vm1", uuid := 0, vcpu := 1,
                              memoryMB := 512,
                              stateCode := VIR_DOMAIN_RUNNING }],
                nextUuid := 1 }) :=
  (manage_power_state_poweroff_spec
    { domains := [{ name := "vm1", uuid := 0, vcpu := 1, memoryMB := 512,
                    stateCode := VIR_DOMAIN_RUNNING }], nextUuid := 1 }
    "vm1"
    { name := "vm1", uuid := 0, vcpu := 1, memoryMB := 512,
      stateCode := VIR_DOMAIN_RUNNING }
    (by decide) false (fun _ => VIR_DOMAIN_RUNNING)).2.2.1 (by decide) rfl

/-! ## Theorems about network attachment -/

/-- C7: attaching an already attached network with no MAC requested reports
`already_attached=true, changed=false` and issues no attach call (the domain
is unchanged); a requested MAC differing from the existing attachment's MAC
is fatal; a requested MAC equal to the existing one is not an error and also
reports `already_attached=true, changed=false`. -/
theorem network_attach_idempotence_spec (d : AttachNetDomain)
    (netName : String) (macParam existingMac : Option String)
    (hatt : isNetworkAttached d netName = (true, existingMac)) :
    (macParam = none →
      networkAttachRun d netName macParam =
        .ok { changed := false, alreadyAttached := true,
              domainRunning := d.running, macAddress := existingMac } d) ∧
    (macTruthy macParam = true → validateMacAddress macParam = true →
      macParam ≠ existingMac →
      networkAttachRun d netName macParam =
        .fail "Network already attached with different MAC address" d) ∧
    (macTruthy macParam = true → validateMacAddress macParam = true →
      macParam = existingMac →
      networkAttachRun d netName macParam =
        .ok { changed := false, alreadyAttached := true,
              domainRunning := d.running, macAddress := existingMac } d) := by
  refine ⟨?_, ?_, ?_⟩
  · intro hnone
    subst hnone
    unfold networkAttachRun
    rw [hatt]
    simp [macTruthy]
  · intro htru hval hne
    unfold networkAttachRun
    rw [hatt]
    simp [htru, hval, hne]
  · intro htru hval heq
    subst heq
    unfold networkAttachRun
    rw [hatt]
    simp [htru, hval]

/-- Witness for C7: re-attaching `default` with no MAC is a skipped no-op;
with a different valid MAC it is fatal. -/
theorem network_attach_idempotence_spec_witness :
    networkAttachRun attachedDom "default" none =
      .ok { changed := false, alreadyAttached := true, domainRunning := true,
            macAddress := some "52:54:00:aa:bb:cc" } attachedDom ∧
    networkAttachRun attachedDom "default" (some "52:54:00:11:22:33") =
      .fail "Network already attached with different MAC address" attachedDom := by
  constructor
  · exact (network_attach_idempotence_spec attachedDom "default" none
      (some "52:54:00:aa:bb:cc") (by decide)).1 rfl
  · exact (network_attach_idempotence_spec attachedDom "default"
      (some "52:54:00:11:22:33") (some "52:54:00:aa:bb:cc") (by decide)).2.1
      (by decide) (by decide) (by decide)

/-! ## Theorems about the inspector extraction helpers -/

/-- C6 counterexample: the inspector extraction operations do not tolerate
every malformed descriptor — `_extract_bridge_info` raises `ValueError` on a
well-formed descriptor whose `delay` attribute is non-numeric, instead of
returning an empty structure. -/
theorem extract_never_raises_counterexample :
    extractBridgeInfo (some badBridgeNet) =
      .exc (.valueError "invalid literal for int(): x") := by decide

/-- C6 amended: descriptors that fail XML parsing never raise — both
extraction helpers swallow `ParseError` into the empty dict — and well-formed
descriptors with numeric fields are extracted; but a descriptor that parses
while carrying non-numeric numeric fields (bridge `delay`, `<memory>` text)
raises an uncaught conversion error. -/
theorem extract_swallows_parse_errors_only :
    extractMemoryInfo none = .empty ∧
    extractBridgeInfo none = .empty ∧
    extractMemoryInfo (some goodMemoryDom) =
      .ok { maximum := some 2048, current := some 2048, unit := some "MiB" } ∧
    (extractMemoryInfo (some badMemoryDom)).isExc = true ∧
    (extractBridgeInfo (some badBridgeNet)).isExc = true := by decide

/-! ## Theorems about the DHCP reservation module -/

/-- C8 amended: reconciling against a network whose descriptor has no DHCP
section always returns `skipped=true, changed=false` with a warning, never a
fatal error; with DHCP configured, a request whose IP fails the subnet
validation is fatal; and an existing host entry exactly matching the
requested (mac, ip, name) triple yields `changed=false` with no update
issued, provided that entry is the first host the by-MAC-or-by-IP lookup
finds. -/
theorem dhcp_reservation_spec (netXml : Option Xml)
    (netName domName ip mac : String) :
    (hasDhcpEnabled netXml = false →
      updateReservation netXml netName domName ip mac =
        .result { changed := false, skipped := true,
                  msg := "Operation skipped - DHCP not enabled",
                  warning := some ("Network " ++ netName ++
                    " does not have DHCP enabled - skipping DHCP reservation"),
                  updateCommand := none }) ∧
    (hasDhcpEnabled netXml = true → validateIpAddress ip netXml = false →
      updateReservation netXml netName domName ip mac =
        .fatal ("IP address " ++ stripIpCidr ip ++
          " is not within network range")) ∧
    (∀ host, hasDhcpEnabled netXml = true → validateIpAddress ip netXml = true →
      getExistingHost netXml (some mac) (some ip) = some host →
      (host.attr "mac" == some mac && host.attr "ip" == some (stripIpCidr ip) &&
        host.attr "name" == some domName) = true →
      updateReservation netXml netName domName ip mac =
        .result { changed := false, skipped := false,
                  msg := "DHCP reservation already up to date",
                  warning := none, updateCommand := none }) := by
  refine ⟨?_, ?_, ?_⟩
  · intro hno
    unfold updateReservation
    simp [hno]
  · intro hyes hbad
    unfold updateReservation
    simp [hyes, hbad]
  · intro host hyes hok hfound hexact
    unfold updateReservation
    rw [hfound] at *
    simp [hyes, hok, hfound, hexact]

/-- C8 counterexample: the descriptor `dhcpNetShadowed` contains a host entry
exactly matching the requested (mac, ip, name) triple, yet the module issues
a MODIFY update and reports `changed=true`, because the by-MAC-or-by-IP
lookup returns the earlier entry that shares the requested IP with a
different MAC. -/
theorem dhcp_exact_match_shadowed_counterexample :
    (dhcpHosts dhcpNetShadowed).any (fun h =>
        h.attr "mac" == some "52:54:00:00:00:01" &&
        h.attr "ip" == some "192.168.1.10" &&
        h.attr "name" == some "vm1") = true ∧
    updateReservation (some dhcpNetShadowed) "net0" "vm1" "192.168.1.10"
        "52:54:00:00:00:01" =
      .result { changed := true, skipped := false,
                msg := "DHCP reservation updated", warning := none,
                updateCommand := some VIR_NETWORK_UPDATE_COMMAND_MODIFY } := by
  decide

/-- Witness for C8: no DHCP section → skipped; IP outside 192.168.1.0/24 →
fatal; unshadowed exact entry → no-op. -/
theorem dhcp_reservation_spec_witness :
    updateReservation (some dhcpNetNoDhcp) "net0" "vm1" "192.168.1.10"
        "52:54:00:00:00:01" =
      .result { changed := false, skipped := true,
                msg := "Operation skipped - DHCP not enabled",
                warning := some ("Network " ++ "net0" ++
                  " does not have DHCP enabled - skipping DHCP reservation"),
                updateCommand := none } ∧
    updateReservation (some dhcpNetExact) "net0" "vm1" "10.0.0.5"
        "52:54:00:00:00:01" =
      .fatal ("IP address " ++ stripIpCidr "10.0.0.5" ++
        " is not within network range") ∧
    updateReservation (some dhcpNetExact) "net0" "vm1" "192.168.1.10"
        "52:54:00:00:00:01" =
      .result { changed := false, skipped := false,
                msg := "DHCP reservation already up to date",
                warning := none, updateCommand := none } := by
  refine ⟨?_, ?_, ?_⟩
  · exact (dhcp_reservation_spec (some dhcpNetNoDhcp) "net0" "vm1"
      "192.168.1.10" "52:54:00:00:00:01").1 (by decide)
  · exact (dhcp_reservation_spec (some dhcpNetExact) "net0" "vm1" "10.0.0.5"
      "52:54:00:00:00:01").2.1 (by decide) (by decide)
  · exact (dhcp_reservation_spec (some dhcpNetExact) "net0" "vm1"
      "192.168.1.10" "52:54:00:00:00:01").2.2
      (Xml.mk "host"
        [("mac", "52:54:00:00:00:01"), ("ip", "192.168.1.10"), ("name", "vm1")]
        none [])
      (by decide) (by decide) (by rfl) (by decide)

/-! ## Theorems about volume attachment (duplicate detection) -/

/-- C5 counterexample: requesting attachment of volume `v1` to a domain that
already has `v1` attached is not detected — the module attaches a second
disk (`vdb`) backed by the same (pool, volume) identity and reports
`changed=true`, so the device list comes to contain a duplicate. -/
theorem volume_attach_duplicate_counterexample :
    ((storageAttachMain vstExample dupDom "p1" ["v1"]).payload).map Prod.fst =
      some true ∧
    (((storageAttachMain vstExample dupDom "p1" ["v1"]).state).disks.filter
        (fun dk => dk.sourceVol == some ("p1", "v1"))).length = 2 ∧
    (dupDom.disks.filter
        (fun dk => dk.sourceVol == some ("p1", "v1"))).length = 1 := by
  decide

/-- Attaching a single volume always appends exactly one disk whose source
is that volume. -/
lemma attachVolumesLoop_single (poolName : String) (v : Volume)
    (dom : AttachVolDomain) (changed0 : Bool) :
    ∃ dom2 recs,
      attachVolumesLoop poolName [v] dom [] changed0 = .ok (true, recs) dom2 ∧
      dom2.disks.length = dom.disks.length + 1 ∧
      (dom2.disks.getLast?).map DiskDev.sourceVol =
        some (some (poolName, v.name)) := by
  cases hiso : isIsoVolume v with
  | false =>
      refine ⟨{ dom with disks := dom.disks ++
          [{ device := "disk", sourceVol := some (poolName, v.name),
             targetDev := nextTargetDev dom.disks "vd", bus := "virtio" }] },
        [{ name := v.name, dtype := "disk",
           target := nextTargetDev dom.disks "vd", bus := "virtio" }],
        ?_, ?_, ?_⟩
      · simp [attachVolumesLoop, hiso]
      · simp
      · simp [List.getLast?_concat]
  | true =>
      refine ⟨{ dom with disks := dom.disks ++
          [{ device := "cdrom", sourceVol := some (poolName, v.name),
             targetDev := nextTargetDev dom.disks "sd", bus := "sata" }] },
        [{ name := v.name, dtype := "cdrom",
           target := nextTargetDev dom.disks "sd", bus := "sata" }],
        ?_, ?_, ?_⟩
      · simp [attachVolumesLoop, hiso]
      · simp
      · simp [List.getLast?_concat]

/-- C5 amended: network attachment detects and skips an already-attached
network (no attach call, `changed=false`); volume attachment performs no such
check — for any existing volume and any domain (in particular one already
holding that volume), the module unconditionally appends one more disk with
that volume as its source and reports `changed=true`. -/
theorem attach_duplicate_detection_spec :
    (∀ (d : AttachNetDomain) (netName : String) (existingMac : Option String),
      isNetworkAttached d netName = (true, existingMac) →
      networkAttachRun d netName none =
        .ok { changed := false, alreadyAttached := true,
              domainRunning := d.running, macAddress := existingMac } d) ∧
    (∀ (vst : VState) (dom : AttachVolDomain) (poolName n : String) (v : Volume),
      poolExists vst poolName = true →
      findVol vst poolName n = some v →
      ∃ dom2 recs,
        storageAttachMain vst dom poolName [n] = .ok (true, recs) dom2 ∧
        dom2.disks.length = dom.disks.length + 1 ∧
        (dom2.disks.getLast?).map DiskDev.sourceVol =
          some (some (poolName, v.name))) := by
  constructor
  · intro d netName existingMac hatt
    unfold networkAttachRun
    rw [hatt]
    simp [macTruthy]
  · intro vst dom poolName n v hpool hfind
    have hl : List.map (fun m => (m, findVol vst poolName m)) [n] = [(n, some v)] := by
      simp [hfind]
    unfold storageAttachMain
    rw [hl]
    simp only [hpool, Bool.not_true, List.find?_cons, Option.isNone_some,
      List.find?_nil, List.filterMap_cons, List.filterMap_nil]
    rw [if_neg (by simp)]
    by_cases hiso : ([v].any isIsoVolume = true ∧ ¬dom.hasSataController = true)
    · rw [if_pos hiso]
      obtain ⟨dom2, recs, h1, h2, h3⟩ := attachVolumesLoop_single poolName v
        { running := dom.running, disks := dom.disks, hasSataController := true }
        true
      exact ⟨dom2, recs, h1, by simpa using h2, h3⟩
    · rw [if_neg hiso]
      obtain ⟨dom2, recs, h1, h2, h3⟩ :=
        attachVolumesLoop_single poolName v dom false
      exact ⟨dom2, recs, h1, h2, h3⟩

/-- Witness for the amended C5 at `attachedDom` (network side) and `dupDom`
(volume side). -/
theorem attach_duplicate_detection_spec_witness :
    networkAttachRun attachedDom "default" none =
      .ok { changed := false, alreadyAttached := true, domainRunning := true,
            macAddress := some "52:54:00:aa:bb:cc" } attachedDom ∧
    ∃ dom2 recs,
      storageAttachMain vstExample dupDom "p1" ["v1"] = .ok (true, recs) dom2 ∧
      dom2.disks.length = dupDom.disks.length + 1 ∧
      (dom2.disks.getLast?).map DiskDev.sourceVol = some (some ("p1", "v1")) :=
  ⟨attach_duplicate_detection_spec.1 attachedDom "default"
      (some "52:54:00:aa:bb:cc") (by decide),
   attach_duplicate_detection_spec.2 vstExample dupDom "p1" "v1"
      { pool := "p1", name := "v1", capacity := 5 * 1024 ^ 3, allocation := 0,
        format := "qcow2" } (by decide) (by decide)⟩

/-! ## Theorems about the domain clone flow -/

/-- C3: when cloning disk 2 of 2 fails inside `clone_volume` (a hypervisor
error during the pool-level clone call), the operation fails without
defining a clone domain and without touching the source domain — but the
volume already cloned for disk 1 is left behind: the rollback handler
catches only `libvirtError`, while `clone_volume` re-raises the error as a
plain `Exception`.  The rollback does fire for the other error class (a
failing source-volume lookup), deleting the already-cloned volume — showing
the cleanup the source intends. -/
theorem clone_rollback_code_bug :
    (cloneDomainMain cloneStCloneFail "src" "clone" cloneSrcDisks none
        false).isFail = true ∧
    volumeExists (cloneDomainMain cloneStCloneFail "src" "clone" cloneSrcDisks
        none false).state.env.vst "p1" "clone-disk1" = true ∧
    (cloneDomainMain cloneStCloneFail "src" "clone" cloneSrcDisks none
        false).state.domains = ["src"] ∧
    (cloneDomainMain cloneStLookupFail "src" "clone" cloneSrcDisks none
        false).isFail = true ∧
    volumeExists (cloneDomainMain cloneStLookupFail "src" "clone" cloneSrcDisks
        none false).state.env.vst "p1" "clone-disk1" = false ∧
    (cloneDomainMain cloneStLookupFail "src" "clone" cloneSrcDisks none
        false).state.domains = ["src"] := by
  decide

/-! ## Theorems about network descriptor synthesis -/

/-- For a valid CIDR of prefix length ≤ 28, the default-range addresses stay
inside the 32-bit range. -/
lemma cidr_bounds (c : Cidr) (hv : c.valid) (hp : c.plen ≤ 28) :
    c.base + 10 < 2 ^ 32 ∧ 0 < c.broadcast := by
  obtain ⟨hb, _hple, hmod⟩ := hv
  have hm16 : (16 : Nat) ≤ 2 ^ (32 - c.plen) := by
    calc (16 : Nat) = 2 ^ 4 := by norm_num
      _ ≤ 2 ^ (32 - c.plen) := Nat.pow_le_pow_right (by norm_num) (by omega)
  have hsplit : 2 ^ (32 - c.plen) * 2 ^ c.plen = 2 ^ 32 := by
    rw [← pow_add]
    congr 1
    omega
  obtain ⟨q, hq⟩ := Nat.dvd_of_mod_eq_zero hmod
  have hqlt : q < 2 ^ c.plen := by
    by_contra hge
    push_neg at hge
    have h32 : 2 ^ 32 ≤ c.base := by
      calc 2 ^ 32 = 2 ^ (32 - c.plen) * 2 ^ c.plen := hsplit.symm
        _ ≤ 2 ^ (32 - c.plen) * q := Nat.mul_le_mul_left _ hge
        _ = c.base := hq.symm
    omega
  have hle : c.base + 2 ^ (32 - c.plen) ≤ 2 ^ 32 := by
    calc c.base + 2 ^ (32 - c.plen) = 2 ^ (32 - c.plen) * (q + 1) := by
          rw [hq]; ring
      _ ≤ 2 ^ (32 - c.plen) * 2 ^ c.plen := Nat.mul_le_mul_left _ hqlt
      _ = 2 ^ 32 := hsplit
  unfold Cidr.broadcast
  constructor <;> omega

/-- C9: with a CIDR, DHCP enabled and no explicit range, the synthesized
descriptor's `<ip>` element has address = network address + 1 and the netmask
derived from the CIDR, its DHCP range runs from network address + 10 to
broadcast − 1; and for an isolated network type no `<forward>` element is
emitted. -/
theorem generate_network_xml_defaults_spec (p : NetParams) (c : Cidr)
    (hc : p.cidr = some c) (hv : c.valid) (hp : c.plen ≤ 28)
    (dcfg : DhcpParams) (hd : p.dhcp = some dcfg) (hde : dcfg.enabled = true)
    (hns : dcfg.rangeStart = none) (hne : dcfg.rangeEnd = none)
    (dns : DnsParams) (hdns : p.dns = some dns) :
    ∃ x, generateNetworkXml p = some x ∧
      x.ip = some { address := ipToString (c.base + 1),
                    netmask := ipToString c.netmask,
                    dhcp := some { startAddr := ipToString (c.base + 10),
                                   endAddr := ipToString (c.broadcast - 1) } } ∧
      (p.ntype = "isolated" → x.forwardMode = none) ∧
      (p.ntype ≠ "isolated" → x.forwardMode = some p.ntype) := by
  obtain ⟨h10, hbc⟩ := cidr_bounds c hv hp
  have hdc : dcfg = { enabled := true, rangeStart := none, rangeEnd := none } := by
    cases dcfg
    simp_all
  subst hdc
  unfold generateNetworkXml
  rw [hc, hd, hdns]
  dsimp only
  rw [if_pos h10, if_pos hbc]
  cases hdnsEn : dns.enabled with
  | true =>
      rw [if_pos rfl, if_pos rfl]
      exact ⟨_, rfl, rfl, fun hiso => by simp [hiso], fun hiso => by simp [hiso]⟩
  | false =>
      rw [if_pos rfl, if_neg (by decide)]
      exact ⟨_, rfl, rfl, fun hiso => by simp [hiso], fun hiso => by simp [hiso]⟩

/-- Witness for C9 at 192.168.100.0/24, DHCP enabled with no explicit range,
isolated type: ip 192.168.100.1/255.255.255.0, range
192.168.100.10–192.168.100.254, no forward element. -/
theorem generate_network_xml_defaults_spec_witness :
    ∃ x, generateNetworkXml
        { name := "iso0", state := "present", ntype := "isolated",
          bridge := none, cidr := some { base := 0xC0A86400, plen := 24 },
          dhcp := some { enabled := true, rangeStart := none, rangeEnd := none },
          dns := some { enabled := true, forwarders := [], hosts := [] },
          domainName := none, autostart := true, mtu := none, delay := 0,
          stp := true } = some x ∧
      x.ip = some { address := ipToString (0xC0A86400 + 1),
                    netmask := ipToString (Cidr.netmask { base := 0xC0A86400, plen := 24 }),
                    dhcp := some { startAddr := ipToString (0xC0A86400 + 10),
                                   endAddr := ipToString
                                     (Cidr.broadcast { base := 0xC0A86400, plen := 24 } - 1) } } ∧
      ("isolated" = "isolated" → x.forwardMode = none) ∧
      (("isolated" : String) ≠ "isolated" → x.forwardMode = some "isolated") := by
  have h := generate_network_xml_defaults_spec
    { name := "iso0", state := "present", ntype := "isolated",
      bridge := none, cidr := some { base := 0xC0A86400, plen := 24 },
      dhcp := some { enabled := true, rangeStart := none, rangeEnd := none },
      dns := some { enabled := true, forwarders := [], hosts := [] },
      domainName := none, autostart := true, mtu := none, delay := 0,
      stp := true }
    { base := 0xC0A86400, plen := 24 } rfl
    (by unfold Cidr.valid; refine ⟨by norm_num, by norm_num, by norm_num⟩)
    (by norm_num)
    { enabled := true, rangeStart := none, rangeEnd := none } rfl rfl rfl rfl
    { enabled := true, forwarders := [], hosts := [] } rfl
  exact h

/-! ## Theorems: idempotence of the reconciliation operations (C1) -/

lemma findDom_setDomState (st : DState) (n : String) (code : Nat) :
    findDom (setDomState st n code) n =
      (findDom st n).map (fun d => { d with stateCode := code }) := by
  unfold findDom setDomState
  rw [List.find?_map]
  have hcomp : ((fun d : Domain => d.name == n) ∘
      (fun d : Domain => if d.name == n then { d with stateCode := code } else d))
      = (fun d : Domain => d.name == n) := by
    funext d
    simp only [Function.comp]
    by_cases hd : (d.name == n) = true
    · rw [if_pos hd]
    · rw [if_neg hd]
  rw [hcomp]
  cases hfind : st.domains.find? (fun d => d.name == n) with
  | none => rfl
  | some d =>
      have hd : (d.name == n) = true := by simpa using List.find?_some hfind
      dsimp only [Option.map]
      rw [if_pos hd]

lemma findNet_setNet (st : NState) (nw m : Network)
    (h : findNet st nw.name = some m) :
    findNet (setNet st nw) nw.name = some nw := by
  unfold findNet setNet at *
  rw [List.find?_map]
  have hcomp : ((fun x : Network => x.name == nw.name) ∘
      (fun x : Network => if x.name == nw.name then nw else x))
      = (fun x : Network => x.name == nw.name) := by
    funext x
    simp only [Function.comp]
    by_cases hx : (x.name == nw.name) = true
    · rw [if_pos hx, hx]
      simp
    · rw [if_neg hx]
  rw [hcomp, h]
  have hm : (m.name == nw.name) = true := by simpa using List.find?_some h
  dsimp only [Option.map]
  rw [if_pos hm]

lemma findPool_update (st : PoolState) (pname : String) (q2 : Pool) (m : Pool)
    (h : findPool st pname = some m) (hq : (q2.name == pname) = true) :
    findPool
      { st with
        pools := st.pools.map (fun r => if r.name == pname then q2 else r) }
      pname = some q2 := by
  unfold findPool at *
  rw [List.find?_map]
  have hcomp : ((fun x : Pool => x.name == pname) ∘
      (fun x : Pool => if x.name == pname then q2 else x))
      = (fun x : Pool => x.name == pname) := by
    funext x
    simp only [Function.comp]
    by_cases hx : (x.name == pname) = true
    · rw [if_pos hx, hx, hq]
    · rw [if_neg hx]
  rw [hcomp, h]
  have hm : (m.name == pname) = true := by simpa using List.find?_some h
  dsimp only [Option.map]
  rw [if_pos hm]

/-- After `ensure_network_state` with target active/inactive, the network
matches the target and the declared autostart flag (name and descriptor
untouched). -/
lemma ensureNetworkState_post (nw : Network) (t : String) (a : Bool)
    (ht : t = "active" ∨ t = "inactive") :
    ((ensureNetworkState nw t a).2).name = nw.name ∧
    ((ensureNetworkState nw t a).2).active = (t == "active") ∧
    ((ensureNetworkState nw t a).2).autostart = a ∧
    ((ensureNetworkState nw t a).2).xml = nw.xml := by
  unfold ensureNetworkState
  rcases ht with ht | ht <;> subst ht <;> cases hact : nw.active <;>
    cases haut : nw.autostart <;> cases a <;> simp [hact, haut]

/-- `ensure_network_state` on a network already matching the target and
autostart flag is a no-op. -/
lemma ensureNetworkState_noop (nw : Network) (t : String) (a : Bool)
    (ht : t = "active" ∨ t = "inactive")
    (hact : nw.active = (t == "active")) (haut : nw.autostart = a) :
    ensureNetworkState nw t a = (false, nw) := by
  unfold ensureNetworkState
  rcases ht with ht | ht <;> subst ht <;> cases h : nw.active <;>
    simp_all

lemma beq_name_of_findNet {st : NState} {n : String} {nw : Network}
    (h : findNet st n = some nw) : nw.name = n := by
  unfold findNet at h
  have := List.find?_some h
  simpa using this

lemma findNet_filter_out (st : NState) (n : String) :
    findNet { networks := st.networks.filter (fun m => ¬(m.name == n)) } n
      = none := by
  unfold findNet
  rw [List.find?_eq_none]
  intro x hx
  have := (List.mem_filter.mp hx).2
  simpa using this

lemma findNet_append_new (st : NState) (nw : Network)
    (hfind : findNet st nw.name = none) :
    findNet { networks := st.networks ++ [nw] } nw.name = some nw := by
  unfold findNet at *
  rw [List.find?_append, hfind]
  simp

/-- Second call of the ensure phase with a network that already matches. -/
lemma manageNetworkEnsure_second (st1 : NState) (p : NetParams) (nw2 : Network)
    (t : String) (ht : t = "active" ∨ t = "inactive")
    (hact : nw2.active = (t == "active")) (haut : nw2.autostart = p.autostart)
    (hname : nw2.name = p.name)
    (hfind1 : findNet st1 p.name = some nw2) :
    (p.state = t ∨ (p.state = "present" ∧ t = "active" ∧
      (∃ cfg, p.dhcp = some cfg ∧ cfg.enabled = true))) →
    ∃ m2, manageNetworkEnsure st1 p (some nw2) false "" =
        .ok (false, getNetworkInfo st1 p.name, m2) (setNet st1 nw2) ∧
      getNetworkInfo (setNet st1 nw2) p.name = getNetworkInfo st1 p.name := by
  intro hcase
  have hnoop : ensureNetworkState nw2 t p.autostart = (false, nw2) :=
    ensureNetworkState_noop nw2 t p.autostart ht hact haut
  have hfind2 : findNet (setNet st1 nw2) p.name = some nw2 := by
    have := findNet_setNet st1 nw2 nw2 (by rw [hname]; exact hfind1)
    rwa [hname] at this
  have hinfo : getNetworkInfo (setNet st1 nw2) p.name =
      getNetworkInfo st1 p.name := by
    unfold getNetworkInfo
    rw [hfind2, hfind1]
  rcases hcase with hc | ⟨hpres, htA, cfg, hdhcp, hen⟩
  · rcases ht with ht1 | ht1
    · subst ht1
      unfold manageNetworkEnsure
      dsimp only
      rw [hc]
      rw [if_pos (show ((("active" : String) == "active") = true) ∨
        ((("active" : String) == "inactive") = true) from Or.inl (by decide))]
      rw [hnoop]
      dsimp only
      exact ⟨_, by rw [hinfo], hinfo⟩
    · subst ht1
      unfold manageNetworkEnsure
      dsimp only
      rw [hc]
      rw [if_pos (show ((("inactive" : String) == "active") = true) ∨
        ((("inactive" : String) == "inactive") = true) from Or.inr (by decide))]
      rw [hnoop]
      dsimp only
      exact ⟨_, by rw [hinfo], hinfo⟩
  · subst htA
    unfold manageNetworkEnsure
    dsimp only
    rw [hpres]
    rw [if_neg (show ¬(((("present" : String) == "active") = true) ∨
      ((("present" : String) == "inactive") = true)) by decide)]
    rw [if_pos (show (("present" : String) == "present") = true by decide)]
    rw [hdhcp]
    dsimp only
    rw [if_pos hen, hnoop]
    dsimp only
    exact ⟨_, by rw [hinfo], hinfo⟩



lemma manageNetworkCreate_ok_some (st : NState) (p : NetParams) (nw : Network)
    (ch : Bool) (msg : String) (stc : NState)
    (h : manageNetworkCreate st p = .ok (some nw, ch, msg) stc) :
    findNet stc p.name = some nw := by
  unfold manageNetworkCreate at h
  cases hfind : findNet st p.name with
  | some m =>
      rw [hfind] at h
      simp only [ModResult.ok.injEq, Prod.mk.injEq, Option.some.injEq] at h
      obtain ⟨⟨hnw, -, -⟩, hst⟩ := h
      rw [← hst, ← hnw]
      exact hfind
  | none =>
      rw [hfind] at h
      by_cases hinact : (p.state != "inactive") = true
      · rw [if_pos hinact] at h
        cases hgen : generateNetworkXml p with
        | none => rw [hgen] at h; exact absurd h (by simp)
        | some x =>
            rw [hgen] at h
            simp only [ModResult.ok.injEq, Prod.mk.injEq, Option.some.injEq] at h
            obtain ⟨⟨hnw, -, -⟩, hst⟩ := h
            rw [← hst, ← hnw]
            exact findNet_append_new st
              { name := p.name, active := false, autostart := false, xml := x }
              hfind
      · rw [if_neg hinact] at h
        exact absurd h (by simp)

lemma manageNetworkCreate_ok_none (st : NState) (p : NetParams)
    (ch : Bool) (msg : String) (stc : NState)
    (h : manageNetworkCreate st p = .ok (none, ch, msg) stc) :
    stc = st ∧ ch = false ∧ (p.state != "inactive") = false := by
  unfold manageNetworkCreate at h
  cases hfind : findNet st p.name with
  | some m =>
      rw [hfind] at h
      simp at h
  | none =>
      rw [hfind] at h
      by_cases hinact : (p.state != "inactive") = true
      · rw [if_pos hinact] at h
        cases hgen : generateNetworkXml p with
        | none => rw [hgen] at h; exact absurd h (by simp)
        | some x => rw [hgen] at h; simp at h
      · rw [if_neg hinact] at h
        simp only [ModResult.ok.injEq, Prod.mk.injEq] at h
        exact ⟨h.2.symm, h.1.2.1.symm, by simpa using hinact⟩



lemma manageNetwork_twice (st : NState) (p : NetParams) (c1 : Bool)
    (i1 : Option NetworkInfo) (m1 : String) (st1 : NState)
    (hok : manageNetwork st p = .ok (c1, i1, m1) st1)
    (hs : p.state = "present" ∨ p.state = "active" ∨ p.state = "inactive" ∨
      p.state = "absent") :
    ∃ m2 st2, manageNetwork st1 p = .ok (false, i1, m2) st2 ∧
      getNetworkInfo st2 p.name = getNetworkInfo st1 p.name := by
  by_cases habs : p.state = "absent"
  · unfold manageNetwork at hok ⊢
    rw [habs] at hok ⊢
    rw [if_pos (by decide)] at hok ⊢
    cases hfind : findNet st p.name with
    | some nw =>
        rw [hfind] at hok
        simp only [ModResult.ok.injEq, Prod.mk.injEq] at hok
        obtain ⟨⟨-, hi, -⟩, hst⟩ := hok
        rw [← hst, findNet_filter_out st p.name, ← hi]
        exact ⟨_, _, rfl, rfl⟩
    | none =>
        rw [hfind] at hok
        simp only [ModResult.ok.injEq, Prod.mk.injEq] at hok
        obtain ⟨⟨-, hi, -⟩, hst⟩ := hok
        rw [← hst, hfind, ← hi]
        exact ⟨_, _, rfl, rfl⟩
  · have hneq : ¬((p.state == "absent") = true) := by simpa using habs
    unfold manageNetwork at hok ⊢
    rw [if_neg hneq] at hok ⊢
    cases hcr : manageNetworkCreate st p with
    | fail m s => rw [hcr] at hok; exact absurd hok (by simp)
    | ok pay stc =>
        obtain ⟨net?, changed0, msg0⟩ := pay
        rw [hcr] at hok
        dsimp only at hok
        cases net? with
        | none =>
            obtain ⟨hstc, hch0, hinact⟩ :=
              manageNetworkCreate_ok_none st p changed0 msg0 stc hcr
            subst hstc
            subst hch0
            unfold manageNetworkEnsure at hok
            dsimp only at hok
            simp only [ModResult.ok.injEq, Prod.mk.injEq] at hok
            obtain ⟨⟨hc, hi, hm⟩, hst⟩ := hok
            rw [← hst, hcr]
            dsimp only
            unfold manageNetworkEnsure
            dsimp only
            rw [← hi]
            exact ⟨_, _, rfl, rfl⟩
        | some nw =>
            have hfindc : findNet stc p.name = some nw :=
              manageNetworkCreate_ok_some st p nw changed0 msg0 stc hcr
            have hname : nw.name = p.name := beq_name_of_findNet hfindc
            rcases hs with hsv | hsv | hsv | hsv
            -- state = "present"
            · unfold manageNetworkEnsure at hok
              dsimp only at hok
              rw [hsv] at hok
              rw [if_neg (show ¬(((("present" : String) == "active") = true) ∨
                ((("present" : String) == "inactive") = true)) by decide)] at hok
              rw [if_pos (show (("present" : String) == "present") = true
                by decide)] at hok
              cases hdh : p.dhcp with
              | none => rw [hdh] at hok; exact absurd hok (by simp)
              | some cfg =>
                  rw [hdh] at hok
                  dsimp only at hok
                  cases hen : cfg.enabled with
                  | false =>
                      rw [if_neg (by simp [hen])] at hok
                      simp only [ModResult.ok.injEq, Prod.mk.injEq] at hok
                      obtain ⟨⟨hc, hi, hm⟩, hst⟩ := hok
                      rw [← hst]
                      have hcr2 : manageNetworkCreate stc p =
                          .ok (some nw, false, "") stc := by
                        unfold manageNetworkCreate
                        rw [hfindc]
                      rw [hcr2]
                      dsimp only
                      unfold manageNetworkEnsure
                      dsimp only
                      rw [hsv]
                      rw [if_neg (show ¬(((("present" : String) == "active") = true) ∨
                        ((("present" : String) == "inactive") = true)) by decide)]
                      rw [if_pos (show (("present" : String) == "present") = true
                        by decide)]
                      rw [hdh]
                      dsimp only
                      rw [if_neg (by simp [hen]), ← hi]
                      exact ⟨_, _, rfl, rfl⟩
                  | true =>
                      rw [if_pos hen] at hok
                      cases hens : ensureNetworkState nw "active" p.autostart with
                      | mk c2 nw2 =>
                      rw [hens] at hok
                      dsimp only at hok
                      simp only [ModResult.ok.injEq, Prod.mk.injEq] at hok
                      obtain ⟨⟨hc, hi, hm⟩, hst⟩ := hok
                      have hpost := ensureNetworkState_post nw "active"
                        p.autostart (Or.inl rfl)
                      rw [hens] at hpost
                      obtain ⟨hpname, hpact, hpaut, -⟩ := hpost
                      have hname2 : nw2.name = p.name := by rw [hpname, hname]
                      have hfind1 : findNet (setNet stc nw2) p.name = some nw2 := by
                        have := findNet_setNet stc nw2 nw
                          (by rw [hname2]; exact hfindc)
                        rwa [hname2] at this
                      rw [← hst]
                      have hcr2 : manageNetworkCreate (setNet stc nw2) p =
                          .ok (some nw2, false, "") (setNet stc nw2) := by
                        unfold manageNetworkCreate
                        rw [hfind1]
                      rw [hcr2]
                      dsimp only
                      obtain ⟨m2, h2, hinfo⟩ := manageNetworkEnsure_second
                        (setNet stc nw2) p nw2 "active" (Or.inl rfl) hpact hpaut
                        hname2 hfind1 (Or.inr ⟨hsv, rfl, cfg, hdh, hen⟩)
                      exact ⟨m2, _, by rw [h2, hi], hinfo⟩
            -- state = "active"
            · unfold manageNetworkEnsure at hok
              dsimp only at hok
              rw [hsv] at hok
              rw [if_pos (show ((("active" : String) == "active") = true) ∨
                ((("active" : String) == "inactive") = true)
                from Or.inl (by decide))] at hok
              cases hens : ensureNetworkState nw "active" p.autostart with
              | mk c2 nw2 =>
              rw [hens] at hok
              dsimp only at hok
              simp only [ModResult.ok.injEq, Prod.mk.injEq] at hok
              obtain ⟨⟨hc, hi, hm⟩, hst⟩ := hok
              have hpost := ensureNetworkState_post nw "active" p.autostart
                (Or.inl rfl)
              rw [hens] at hpost
              obtain ⟨hpname, hpact, hpaut, -⟩ := hpost
              have hname2 : nw2.name = p.name := by rw [hpname, hname]
              have hfind1 : findNet (setNet stc nw2) p.name = some nw2 := by
                have := findNet_setNet stc nw2 nw (by rw [hname2]; exact hfindc)
                rwa [hname2] at this
              rw [← hst]
              have hcr2 : manageNetworkCreate (setNet stc nw2) p =
                  .ok (some nw2, false, "") (setNet stc nw2) := by
                unfold manageNetworkCreate
                rw [hfind1]
              rw [hcr2]
              dsimp only
              obtain ⟨m2, h2, hinfo⟩ := manageNetworkEnsure_second
                (setNet stc nw2) p nw2 "active" (Or.inl rfl) hpact hpaut hname2
                hfind1 (Or.inl hsv)
              exact ⟨m2, _, by rw [h2, hi], hinfo⟩
            -- state = "inactive"
            · unfold manageNetworkEnsure at hok
              dsimp only at hok
              rw [hsv] at hok
              rw [if_pos (show ((("inactive" : String) == "active") = true) ∨
                ((("inactive" : String) == "inactive") = true)
                from Or.inr (by decide))] at hok
              cases hens : ensureNetworkState nw "inactive" p.autostart with
              | mk c2 nw2 =>
              rw [hens] at hok
              dsimp only at hok
              simp only [ModResult.ok.injEq, Prod.mk.injEq] at hok
              obtain ⟨⟨hc, hi, hm⟩, hst⟩ := hok
              have hpost := ensureNetworkState_post nw "inactive" p.autostart
                (Or.inr rfl)
              rw [hens] at hpost
              obtain ⟨hpname, hpact, hpaut, -⟩ := hpost
              have hname2 : nw2.name = p.name := by rw [hpname, hname]
              have hfind1 : findNet (setNet stc nw2) p.name = some nw2 := by
                have := findNet_setNet stc nw2 nw (by rw [hname2]; exact hfindc)
                rwa [hname2] at this
              rw [← hst]
              have hcr2 : manageNetworkCreate (setNet stc nw2) p =
                  .ok (some nw2, false, "") (setNet stc nw2) := by
                unfold manageNetworkCreate
                rw [hfind1]
              rw [hcr2]
              dsimp only
              obtain ⟨m2, h2, hinfo⟩ := manageNetworkEnsure_second
                (setNet stc nw2) p nw2 "inactive" (Or.inr rfl) hpact hpaut hname2
                hfind1 (Or.inl hsv)
              exact ⟨m2, _, by rw [h2, hi], hinfo⟩
            -- state = "absent" (contradiction)
            · exact absurd hsv habs

lemma beq_name_of_findPool {st : PoolState} {n : String} {q : Pool}
    (h : findPool st n = some q) : (q.name == n) = true := by
  unfold findPool at h
  simpa using List.find?_some h

lemma findPool_filter_out (st : PoolState) (n : String) :
    findPool { st with pools := st.pools.filter (fun r => ¬(r.name == n)) } n
      = none := by
  unfold findPool
  rw [List.find?_eq_none]
  intro x hx
  have := (List.mem_filter.mp hx).2
  simpa using this

lemma findPool_append_new (st : PoolState) (q : Pool) (dirs2 : List String)
    (hfind : findPool st q.name = none) :
    findPool { pools := st.pools ++ [q], dirs := dirs2 } q.name = some q := by
  unfold findPool at *
  rw [List.find?_append, hfind]
  simp

lemma poolApplyAutostart_fields (p : PoolParams) (q : Pool) :
    ((poolApplyAutostart p q).2).name = q.name ∧
    ((poolApplyAutostart p q).2).active = q.active ∧
    ((poolApplyAutostart p q).2).autostart = p.autostart ∧
    ((poolApplyAutostart p q).2).ptype = q.ptype ∧
    ((poolApplyAutostart p q).2).targetPath = q.targetPath := by
  unfold poolApplyAutostart
  by_cases h : (p.autostart != q.autostart) = true
  · rw [if_pos h]
    exact ⟨rfl, rfl, rfl, rfl, rfl⟩
  · rw [if_neg h]
    have : p.autostart = q.autostart := by simpa using h
    exact ⟨rfl, rfl, this.symm, rfl, rfl⟩

lemma poolApplyAutostart_noop (p : PoolParams) (q : Pool)
    (h : q.autostart = p.autostart) : poolApplyAutostart p q = (false, q) := by
  unfold poolApplyAutostart
  rw [if_neg (by simp [h])]

lemma poolApplyState_fields (p : PoolParams) (q : Pool) :
    ((poolApplyState p q).2).name = q.name ∧
    ((poolApplyState p q).2).autostart = q.autostart ∧
    ((poolApplyState p q).2).ptype = q.ptype ∧
    ((poolApplyState p q).2).targetPath = q.targetPath ∧
    (p.state = "active" → ((poolApplyState p q).2).active = true) ∧
    (p.state = "inactive" → ((poolApplyState p q).2).active = false) := by
  unfold poolApplyState
  by_cases h1 : ((p.state == "active") = true ∧ ¬ q.active = true)
  · rw [if_pos h1]
    refine ⟨rfl, rfl, rfl, rfl, fun _ => rfl, fun hin => ?_⟩
    rw [hin] at h1
    exact absurd h1.1 (by decide)
  · rw [if_neg h1]
    by_cases h2 : ((p.state == "inactive") = true ∧ q.active = true)
    · rw [if_pos h2]
      refine ⟨rfl, rfl, rfl, rfl, fun hac => ?_, fun _ => rfl⟩
      rw [hac] at h2
      exact absurd h2.1 (by decide)
    · rw [if_neg h2]
      refine ⟨rfl, rfl, rfl, rfl, fun hac => ?_, fun hin => ?_⟩
      · by_contra hq
        exact h1 ⟨by simp [hac], by simpa using hq⟩
      · by_contra hq
        exact h2 ⟨by simp [hin], by simpa using hq⟩

lemma poolApplyState_noop (p : PoolParams) (q : Pool)
    (h1 : p.state = "active" → q.active = true)
    (h2 : p.state = "inactive" → q.active = false) :
    poolApplyState p q = (false, q) := by
  unfold poolApplyState
  rw [if_neg, if_neg]
  · rintro ⟨ha, hb⟩
    have : p.state = "inactive" := by simpa using ha
    rw [h2 this] at hb
    exact absurd hb (by decide)
  · rintro ⟨ha, hb⟩
    exact hb (h1 (by simpa using ha))

lemma poolPostDefine_ok (stX : PoolState) (p : PoolParams) (changed0 c1 : Bool)
    (m1 : String) (i1 : Option PoolInfo) (st2 : PoolState)
    (h : poolPostDefine stX p changed0 = .ok (c1, m1, i1) st2) :
    ∃ q2 : Pool, findPool st2 p.name = some q2 ∧ i1 = some (getPoolInfo q2) ∧
      q2.autostart = p.autostart ∧
      (p.state = "active" → q2.active = true) ∧
      (p.state = "inactive" → q2.active = false) := by
  unfold poolPostDefine at h
  cases hf : findPool stX p.name with
  | none => rw [hf] at h; exact absurd h (by simp)
  | some q =>
      rw [hf] at h
      simp only [ModResult.ok.injEq, Prod.mk.injEq] at h
      obtain ⟨⟨-, -, hi⟩, hst⟩ := h
      obtain ⟨ha1, ha2, ha3, ha4, ha5⟩ := poolApplyAutostart_fields p q
      obtain ⟨hs1, hs2, hs3, hs4, hs5, hs6⟩ :=
        poolApplyState_fields p (poolApplyAutostart p q).2
      refine ⟨(poolApplyState p (poolApplyAutostart p q).2).2, ?_, hi.symm,
        ?_, hs5, hs6⟩
      · rw [← hst]
        exact findPool_update stX p.name _ q hf
          (by rw [hs1, ha1]; exact beq_name_of_findPool hf)
      · rw [hs2, ha3]

lemma poolPostDefine_second (st1 : PoolState) (p : PoolParams) (q2 : Pool)
    (hfind : findPool st1 p.name = some q2)
    (haut : q2.autostart = p.autostart)
    (hact : p.state = "active" → q2.active = true)
    (hin : p.state = "inactive" → q2.active = false) :
    poolPostDefine st1 p false =
      .ok (false, "Pool " ++ p.name ++ " is in desired state",
           some (getPoolInfo q2))
        { st1 with pools := st1.pools.map (fun r =>
            if r.name == p.name then q2 else r) } := by
  unfold poolPostDefine
  rw [hfind]
  dsimp only
  rw [poolApplyAutostart_noop p q2 haut]
  dsimp only
  rw [poolApplyState_noop p q2 hact hin]
  rfl

lemma managePool_twice (st : PoolState) (p : PoolParams) (c1 : Bool)
    (m1 : String) (i1 : Option PoolInfo) (st1 : PoolState)
    (hok : managePool st p = .ok (c1, m1, i1) st1) :
    ∃ m2 st2, managePool st1 p = .ok (false, m2, i1) st2 := by
  unfold managePool at hok
  cases hf : findPool st p.name with
  | none =>
      rw [hf] at hok
      dsimp only at hok
      by_cases habs : (p.state == "absent") = true
      · rw [if_pos habs] at hok
        simp only [ModResult.ok.injEq, Prod.mk.injEq] at hok
        obtain ⟨⟨-, -, hi⟩, hst⟩ := hok
        unfold managePool
        rw [← hst, hf]
        dsimp only
        rw [if_pos habs, ← hi]
        exact ⟨_, _, rfl⟩
      · rw [if_neg habs] at hok
        cases hpt : p.poolType with
        | none => rw [hpt] at hok; exact absurd hok (by simp)
        | some ptype =>
            rw [hpt] at hok
            dsimp only at hok
            cases htp : p.targetPath with
            | none => rw [htp] at hok; exact absurd hok (by simp)
            | some path =>
                rw [htp] at hok
                dsimp only at hok
                obtain ⟨q2, hfind2, hi, haut, hact, hin⟩ :=
                  poolPostDefine_ok _ p true c1 m1 i1 st1 hok
                unfold managePool
                rw [hfind2]
                dsimp only
                rw [if_neg habs,
                  poolPostDefine_second st1 p q2 hfind2 haut hact hin, hi]
                exact ⟨_, _, rfl⟩
  | some q =>
      rw [hf] at hok
      dsimp only at hok
      by_cases habs : (p.state == "absent") = true
      · rw [if_pos habs] at hok
        simp only [ModResult.ok.injEq, Prod.mk.injEq] at hok
        obtain ⟨⟨-, -, hi⟩, hst⟩ := hok
        unfold managePool
        rw [← hst, findPool_filter_out st p.name]
        dsimp only
        rw [if_pos habs, ← hi]
        exact ⟨_, _, rfl⟩
      · rw [if_neg habs] at hok
        obtain ⟨q2, hfind2, hi, haut, hact, hin⟩ :=
          poolPostDefine_ok st p false c1 m1 i1 st1 hok
        unfold managePool
        rw [hfind2]
        dsimp only
        rw [if_neg habs,
          poolPostDefine_second st1 p q2 hfind2 haut hact hin, hi]
        exact ⟨_, _, rfl⟩

lemma findDom_filter_out (st : DState) (n : String) :
    findDom { st with domains := st.domains.filter (fun d => ¬(d.name == n)) } n
      = none := by
  unfold findDom
  rw [List.find?_eq_none]
  intro x hx
  have := (List.mem_filter.mp hx).2
  simpa using this

lemma findDom_append_new (st : DState) (d : Domain) (u : Nat)
    (hfind : findDom st d.name = none) :
    findDom { domains := st.domains ++ [d], nextUuid := u } d.name = some d := by
  unfold findDom at *
  rw [List.find?_append, hfind]
  simp

lemma findVol_filter_out (st : VState) (p n : String) :
    (st.vols.filter (fun v => ¬(v.pool == p && v.name == n))).find?
      (fun v => v.pool == p && v.name == n) = none := by
  rw [List.find?_eq_none]
  intro x hx
  have h2 := (List.mem_filter.mp hx).2
  simp at h2 ⊢
  tauto

lemma findVol_append_new (st : VState) (v : Volume)
    (hfind : findVol st v.pool v.name = none) :
    findVol { st with vols := st.vols ++ [v] } v.pool v.name = some v := by
  unfold findVol at *
  rw [List.find?_append, hfind]
  simp

/-- C1: every reconciliation operation is idempotent in the deterministic
hypervisor model — a second invocation with identical parameters reports
`changed=false` and leaves the resource's observable info record identical
(domain create/remove, volume create/delete, power state poweroff/running
with a guest honouring shutdown, network present/active/inactive/absent,
pool lifecycle); in particular, domain create on an existing name and volume
create on an existing (pool, name) return `changed=false` with an
"already exists" message and do not mutate the hypervisor state. -/
theorem reconcile_idempotent_spec :
    (∀ (st : DState) (n : String) (v m : Nat) (r1 : DomPayload) (st1 : DState),
      createDomain st n v m = .ok r1 st1 →
      createDomain st1 n v m =
        .ok (false, "Domain already exists", getDomainInfo st1 n) st1) ∧
    (∀ (st : DState) (n : String) (v m : Nat),
      domainExists st n = true →
      createDomain st n v m =
        .ok (false, "Domain already exists", getDomainInfo st n) st) ∧
    (∀ (st : DState) (n : String) (r1 : DomPayload) (st1 : DState),
      removeDomain st n = .ok r1 st1 →
      removeDomain st1 n = .ok (false, "Domain does not exist", none) st1) ∧
    (∀ (st : VState) (p n capacity : String) (alloc : Option String)
      (fmt : String) (r1 : VolPayload) (st1 : VState),
      createVolume st p n capacity alloc fmt = .ok r1 st1 →
      createVolume st1 p n capacity alloc fmt =
        .ok (false, "Volume already exists", none) st1) ∧
    (∀ (st : VState) (p n capacity : String) (alloc : Option String)
      (fmt : String),
      volumeExists st p n = true →
      createVolume st p n capacity alloc fmt =
        .ok (false, "Volume already exists", none) st) ∧
    (∀ (st : VState) (p n : String) (r1 : VolPayload) (st1 : VState),
      deleteVolume st p n = .ok r1 st1 →
      deleteVolume st1 p n = .ok (false, "Volume does not exist", none) st1) ∧
    (∀ (st : DState) (n : String) (force : Bool) (r1 : PowerOutcome)
      (st1 : DState),
      managePowerState st n "poweroff" force obsShutoff = .ok r1 st1 →
      managePowerState st1 n "poweroff" force obsShutoff =
        .ok { changed := false, finalState := VIR_DOMAIN_SHUTOFF, ops := [],
              polled := false } st1) ∧
    (∀ (st : DState) (n : String) (force : Bool) (r1 : PowerOutcome)
      (st1 : DState),
      managePowerState st n "running" force obsShutoff = .ok r1 st1 →
      managePowerState st1 n "running" force obsShutoff =
        .ok { changed := false, finalState := VIR_DOMAIN_RUNNING, ops := [],
              polled := false } st1) ∧
    (∀ (st : NState) (p : NetParams) (c1 : Bool) (i1 : Option NetworkInfo)
      (m1 : String) (st1 : NState),
      manageNetwork st p = .ok (c1, i1, m1) st1 →
      (p.state = "present" ∨ p.state = "active" ∨ p.state = "inactive" ∨
        p.state = "absent") →
      ∃ m2 st2, manageNetwork st1 p = .ok (false, i1, m2) st2 ∧
        getNetworkInfo st2 p.name = getNetworkInfo st1 p.name) ∧
    (∀ (st : PoolState) (p : PoolParams) (c1 : Bool) (m1 : String)
      (i1 : Option PoolInfo) (st1 : PoolState),
      managePool st p = .ok (c1, m1, i1) st1 →
      ∃ m2 st2, managePool st1 p = .ok (false, m2, i1) st2) ∧
    (∀ (st : DState) (n : String) (v m : Nat),
      domainExists st n = false →
      ∃ st1, createDomain st n v m =
        .ok (true, "Domain created successfully", getDomainInfo st1 n) st1) ∧
    (∀ (st : DState) (n : String),
      domainExists st n = true →
      ∃ st1, removeDomain st n =
        .ok (true, "Domain and all associated resources removed successfully",
             none) st1) ∧
    (∀ (st : VState) (p n : String),
      volumeExists st p n = true →
      ∃ st1, deleteVolume st p n =
        .ok (true, "Volume deleted successfully", none) st1) := by
  refine ⟨?_, ?_, ?_, ?_, ?_, ?_, ?_, ?_,
    fun st p c1 i1 m1 st1 hok hs => manageNetwork_twice st p c1 i1 m1 st1 hok hs,
    fun st p c1 m1 i1 st1 hok => managePool_twice st p c1 m1 i1 st1 hok,
    ?_, ?_, ?_⟩
  · -- domain create twice
    intro st n v m r1 st1 hok
    unfold createDomain at hok ⊢
    by_cases hex : domainExists st n = true
    · rw [if_pos hex] at hok
      simp only [ModResult.ok.injEq] at hok
      rw [← hok.2, if_pos hex]
    · rw [if_neg hex] at hok
      simp only [ModResult.ok.injEq] at hok
      have hfn : findDom st n = none := by
        unfold domainExists getDomainInfo at hex
        cases hfd : findDom st n with
        | none => rfl
        | some d => rw [hfd] at hex; simp at hex
      have hex1 : domainExists st1 n = true := by
        rw [← hok.2]
        unfold domainExists getDomainInfo
        rw [findDom_append_new st
          { name := n, uuid := st.nextUuid, vcpu := v, memoryMB := m,
            stateCode := VIR_DOMAIN_SHUTOFF } (st.nextUuid + 1) hfn]
        rfl
      rw [if_pos hex1]
  · -- domain create on an existing name
    intro st n v m hex
    unfold createDomain
    rw [if_pos hex]
  · -- domain remove twice
    intro st n r1 st1 hok
    unfold removeDomain at hok ⊢
    by_cases hex : domainExists st n = true
    · rw [if_pos hex] at hok
      simp only [ModResult.ok.injEq] at hok
      have hex1 : ¬ domainExists st1 n = true := by
        rw [← hok.2]
        unfold domainExists getDomainInfo
        rw [findDom_filter_out st n]
        simp
      rw [if_neg hex1]
    · rw [if_neg hex] at hok
      simp only [ModResult.ok.injEq] at hok
      rw [← hok.2, if_neg hex]
  · -- volume create twice
    intro st p n capacity alloc fmt r1 st1 hok
    unfold createVolume at hok ⊢
    by_cases hex : volumeExists st p n = true
    · rw [if_pos hex] at hok
      simp only [ModResult.ok.injEq] at hok
      rw [← hok.2, if_pos hex]
    · rw [if_neg hex] at hok
      by_cases hpe : poolExists st p = true
      · rw [if_pos hpe] at hok
        have hfn : findVol st p n = none := by
          unfold volumeExists getVolumeInfo at hex
          rw [if_pos hpe] at hex
          cases hfd : findVol st p n with
          | none => rfl
          | some vv => rw [hfd] at hex; simp at hex
        cases hc : parseSize capacity with
        | none => rw [hc] at hok; exact absurd hok (by simp)
        | some capB =>
            rw [hc] at hok
            cases halloc : (match alloc with
                | some a => parseSize a
                | none => some 0) with
            | none => rw [halloc] at hok; exact absurd hok (by simp)
            | some allocB =>
                rw [halloc] at hok
                dsimp only at hok
                simp only [ModResult.ok.injEq] at hok
                have hex1 : volumeExists st1 p n = true := by
                  rw [← hok.2]
                  unfold volumeExists getVolumeInfo
                  rw [show poolExists { st with vols := st.vols ++
                      [{ pool := p, name := n, capacity := capB,
                         allocation := allocB, format := fmt }] } p
                    = poolExists st p from rfl, if_pos hpe]
                  rw [findVol_append_new st
                    { pool := p, name := n, capacity := capB,
                      allocation := allocB, format := fmt } hfn]
                  rfl
                rw [if_pos hex1]
      · rw [if_neg hpe] at hok
        exact absurd hok (by simp)
  · -- volume create on an existing (pool, name)
    intro st p n capacity alloc fmt hex
    unfold createVolume
    rw [if_pos hex]
  · -- volume delete twice
    intro st p n r1 st1 hok
    unfold deleteVolume at hok ⊢
    by_cases hex : volumeExists st p n = true
    · rw [if_pos hex] at hok
      simp only [ModResult.ok.injEq] at hok
      have hpe : poolExists st p = true := by
        unfold volumeExists getVolumeInfo at hex
        by_cases hpp : poolExists st p = true
        · exact hpp
        · rw [if_neg hpp] at hex; simp at hex
      have hex1 : ¬ volumeExists st1 p n = true := by
        rw [← hok.2]
        unfold volumeExists getVolumeInfo
        rw [if_pos
          (show poolExists
              { pools := st.pools,
                vols := st.vols.filter
                  (fun v => ¬(v.pool == p && v.name == n)) } p = true
            from hpe)]
        unfold findVol
        rw [findVol_filter_out st p n]
        simp
      rw [if_neg hex1]
    · rw [if_neg hex] at hok
      simp only [ModResult.ok.injEq] at hok
      rw [← hok.2, if_neg hex]
  · -- poweroff twice
    intro st n force r1 st1 hok
    unfold managePowerState at hok ⊢
    cases hd : findDom st n with
    | none => rw [hd] at hok; exact absurd hok (by simp)
    | some d =>
        rw [hd] at hok
        dsimp only at hok
        rw [if_pos (show (("poweroff" : String) == "poweroff") = true
          by decide)] at hok
        by_cases hcur : d.stateCode ≠ VIR_DOMAIN_SHUTOFF
        · rw [if_pos hcur] at hok
          cases force with
          | true =>
              rw [if_pos rfl] at hok
              simp only [ModResult.ok.injEq] at hok
              have hd1 : findDom st1 n =
                  some { d with stateCode := VIR_DOMAIN_SHUTOFF } := by
                rw [← hok.2, findDom_setDomState, hd]
                rfl
              rw [hd1]
              dsimp only
              rw [if_pos (show (("poweroff" : String) == "poweroff") = true
                by decide)]
              rw [if_neg (show ¬(({ d with stateCode := VIR_DOMAIN_SHUTOFF
                } : Domain).stateCode ≠ VIR_DOMAIN_SHUTOFF) by simp)]
          | false =>
              rw [if_neg (by simp)] at hok
              rw [show waitForState obsShutoff VIR_DOMAIN_SHUTOFF
                  SHUTDOWN_POLL_TIMEOUT = true by decide] at hok
              rw [if_pos rfl] at hok
              simp only [ModResult.ok.injEq] at hok
              have hd1 : findDom st1 n =
                  some { d with stateCode := VIR_DOMAIN_SHUTOFF } := by
                rw [← hok.2, findDom_setDomState, hd]
                rfl
              rw [hd1]
              dsimp only
              rw [if_pos (show (("poweroff" : String) == "poweroff") = true
                by decide)]
              rw [if_neg (show ¬(({ d with stateCode := VIR_DOMAIN_SHUTOFF
                } : Domain).stateCode ≠ VIR_DOMAIN_SHUTOFF) by simp)]
        · rw [if_neg hcur] at hok
          push_neg at hcur
          simp only [ModResult.ok.injEq] at hok
          rw [← hok.2, hd]
          dsimp only
          rw [if_pos (show (("poweroff" : String) == "poweroff") = true
            by decide)]
          rw [if_neg (show ¬(d.stateCode ≠ VIR_DOMAIN_SHUTOFF) by simp [hcur])]
          rw [hcur]
  · -- running twice
    intro st n force r1 st1 hok
    unfold managePowerState at hok ⊢
    cases hd : findDom st n with
    | none => rw [hd] at hok; exact absurd hok (by simp)
    | some d =>
        rw [hd] at hok
        dsimp only at hok
        rw [if_neg (show ¬((("running" : String) == "poweroff") = true)
          by decide)] at hok
        rw [if_neg (show ¬((("running" : String) == "reboot") = true)
          by decide)] at hok
        rw [if_pos (show (("running" : String) == "running") = true
          by decide)] at hok
        by_cases hcur : d.stateCode ≠ VIR_DOMAIN_RUNNING
        · rw [if_pos hcur] at hok
          simp only [ModResult.ok.injEq] at hok
          have hd1 : findDom st1 n =
              some { d with stateCode := VIR_DOMAIN_RUNNING } := by
            rw [← hok.2, findDom_setDomState, hd]
            rfl
          rw [hd1]
          dsimp only
          rw [if_neg (show ¬((("running" : String) == "poweroff") = true)
            by decide)]
          rw [if_neg (show ¬((("running" : String) == "reboot") = true)
            by decide)]
          rw [if_pos (show (("running" : String) == "running") = true
            by decide)]
          rw [if_neg (show ¬(({ d with stateCode := VIR_DOMAIN_RUNNING
            } : Domain).stateCode ≠ VIR_DOMAIN_RUNNING) by simp)]
        · rw [if_neg hcur] at hok
          push_neg at hcur
          simp only [ModResult.ok.injEq] at hok
          rw [← hok.2, hd]
          dsimp only
          rw [if_neg (show ¬((("running" : String) == "poweroff") = true)
            by decide)]
          rw [if_neg (show ¬((("running" : String) == "reboot") = true)
            by decide)]
          rw [if_pos (show (("running" : String) == "running") = true
            by decide)]
          rw [if_neg (show ¬(d.stateCode ≠ VIR_DOMAIN_RUNNING) by simp [hcur])]
          rw [hcur]
  · -- domain create on a fresh name mutates and reports changed=true
    intro st n v m hex
    unfold createDomain
    rw [if_neg (by simp [hex])]
    exact ⟨_, rfl⟩
  · -- domain remove of an existing domain reports changed=true
    intro st n hex
    unfold removeDomain
    rw [if_pos hex]
    exact ⟨_, rfl⟩
  · -- volume delete of an existing volume reports changed=true
    intro st p n hex
    unfold deleteVolume
    rw [if_pos hex]
    exact ⟨_, rfl⟩

/-- Concrete instantiation of C1: each idempotence conjunct applied at a
small concrete hypervisor state, hypotheses evaluated by `decide`. -/
theorem reconcile_idempotent_spec_witness :
    (createDomain ⟨[⟨"vm", 0, 1, 512, 5⟩], 1⟩ "vm" 1 512 =
      .ok (false, "Domain already exists",
        getDomainInfo ⟨[⟨"vm", 0, 1, 512, 5⟩], 1⟩ "vm")
        ⟨[⟨"vm", 0, 1, 512, 5⟩], 1⟩) ∧
    (removeDomain ⟨[], 1⟩ "vm" = .ok (false, "Domain does not exist", none)
      ⟨[], 1⟩) ∧
    (createVolume ⟨["p1"], [⟨"p1", "v1", 1073741824, 0, "qcow2"⟩]⟩ "p1" "v1"
      "1G" none "qcow2" = .ok (false, "Volume already exists", none)
      ⟨["p1"], [⟨"p1", "v1", 1073741824, 0, "qcow2"⟩]⟩) ∧
    (deleteVolume ⟨["p1"], []⟩ "p1" "v1" =
      .ok (false, "Volume does not exist", none) ⟨["p1"], []⟩) ∧
    (managePowerState ⟨[⟨"vm", 0, 1, 512, 5⟩], 1⟩ "vm" "poweroff" false
      obsShutoff =
        .ok { changed := false, finalState := VIR_DOMAIN_SHUTOFF, ops := [],
              polled := false } ⟨[⟨"vm", 0, 1, 512, 5⟩], 1⟩) ∧
    (managePowerState ⟨[⟨"vm", 0, 1, 512, 1⟩], 1⟩ "vm" "running" false
      obsShutoff =
        .ok { changed := false, finalState := VIR_DOMAIN_RUNNING, ops := [],
              polled := false } ⟨[⟨"vm", 0, 1, 512, 1⟩], 1⟩) ∧
    (∃ m2 st2, manageNetwork ⟨[]⟩
        ⟨"net0", "absent", "nat", none, none, none, none, none, false, none,
          0, false⟩ = .ok (false, none, m2) st2 ∧
      getNetworkInfo st2 "net0" = getNetworkInfo ⟨[]⟩ "net0") ∧
    (∃ m2 st2, managePool ⟨[], []⟩ ⟨"pool0", none, none, "absent", true⟩ =
      .ok (false, m2, none) st2) ∧
    (∃ st1, createDomain ⟨[], 0⟩ "vm" 1 512 =
      .ok (true, "Domain created successfully", getDomainInfo st1 "vm") st1) ∧
    (∃ st1, removeDomain ⟨[⟨"vm", 0, 1, 512, 5⟩], 1⟩ "vm" =
      .ok (true, "Domain and all associated resources removed successfully",
           none) st1) ∧
    (∃ st1, deleteVolume ⟨["p1"], [⟨"p1", "v1", 1073741824, 0, "qcow2"⟩]⟩
      "p1" "v1" = .ok (true, "Volume deleted successfully", none) st1) := by
  refine ⟨?_, ?_, ?_, ?_, ?_, ?_, ?_, ?_, ?_, ?_, ?_⟩
  · exact reconcile_idempotent_spec.1 ⟨[], 0⟩ "vm" 1 512
      (true, "Domain created successfully",
        getDomainInfo ⟨[⟨"vm", 0, 1, 512, 5⟩], 1⟩ "vm")
      ⟨[⟨"vm", 0, 1, 512, 5⟩], 1⟩ (by decide)
  · exact reconcile_idempotent_spec.2.2.1 ⟨[⟨"vm", 0, 1, 512, 5⟩], 1⟩ "vm"
      (true, "Domain and all associated resources removed successfully", none)
      ⟨[], 1⟩ (by decide)
  · exact reconcile_idempotent_spec.2.2.2.1 ⟨["p1"], []⟩ "p1" "v1" "1G" none
      "qcow2"
      (true, "Volume created successfully",
        getVolumeInfo ⟨["p1"], [⟨"p1", "v1", 1073741824, 0, "qcow2"⟩]⟩ "p1"
          "v1")
      ⟨["p1"], [⟨"p1", "v1", 1073741824, 0, "qcow2"⟩]⟩ (by decide)
  · exact reconcile_idempotent_spec.2.2.2.2.2.1
      ⟨["p1"], [⟨"p1", "v1", 1073741824, 0, "qcow2"⟩]⟩ "p1" "v1"
      (true, "Volume deleted successfully", none) ⟨["p1"], []⟩ (by decide)
  · exact reconcile_idempotent_spec.2.2.2.2.2.2.1 ⟨[⟨"vm", 0, 1, 512, 1⟩], 1⟩
      "vm" false
      { changed := true, finalState := VIR_DOMAIN_SHUTOFF, ops := [.shutdown],
            polled := true }
      ⟨[⟨"vm", 0, 1, 512, 5⟩], 1⟩ (by decide)
  · exact reconcile_idempotent_spec.2.2.2.2.2.2.2.1 ⟨[⟨"vm", 0, 1, 512, 5⟩], 1⟩
      "vm" false
      { changed := true, finalState := VIR_DOMAIN_RUNNING, ops := [.start],
            polled := false }
      ⟨[⟨"vm", 0, 1, 512, 1⟩], 1⟩ (by decide)
  · exact reconcile_idempotent_spec.2.2.2.2.2.2.2.2.1 ⟨[]⟩
      ⟨"net0", "absent", "nat", none, none, none, none, none, false, none, 0,
        false⟩
      false none "Network net0 does not exist" ⟨[]⟩ (by decide)
      (Or.inr (Or.inr (Or.inr rfl)))
  · exact reconcile_idempotent_spec.2.2.2.2.2.2.2.2.2.1 ⟨[], []⟩
      ⟨"pool0", none, none, "absent", true⟩ false "Pool already absent" none
      ⟨[], []⟩ (by decide)
  · exact reconcile_idempotent_spec.2.2.2.2.2.2.2.2.2.2.1 ⟨[], 0⟩ "vm" 1 512
      (by decide)
  · exact reconcile_idempotent_spec.2.2.2.2.2.2.2.2.2.2.2.1
      ⟨[⟨"vm", 0, 1, 512, 5⟩], 1⟩ "vm" (by decide)
  · exact reconcile_idempotent_spec.2.2.2.2.2.2.2.2.2.2.2.2
      ⟨["p1"], [⟨"p1", "v1", 1073741824, 0, "qcow2"⟩]⟩ "p1" "v1" (by decide)

end NsysLibvirt
